import Mathlib
/-!
Verification of the data-aggregation logic of `pcs-inspect.py`.

The script reads JSON files (policies, alerts, accounts, ...) and folds them
into counter dictionaries before writing a spreadsheet.  We embed the
aggregation functions shallowly: Python dictionaries keyed by strings become
association lists (`Dict`), and the partiality of Python dictionary access
(`KeyError` on a missing key, `NameError` on an unbound global) is made
explicit with `Except String`.  Counts are Python's unbounded integers, so
plain `Int` is used.
-/
set_option maxHeartbeats 1000000
/-- String-keyed dictionary: insertion-ordered association list, as Python's
`dict` with `str` keys. -/
abbrev Dict (α : Type) := List (String × α)
/-- Dictionary lookup: `m[k]` as an `Option`. -/
def Dict.lookup {α : Type} : Dict α → String → Option α
  | [], _ => none
  | (k', v) :: t, k => if k' = k then some v else Dict.lookup t k
/-- Dictionary assignment `m[k] = v`: replaces in place if present, appends
otherwise (Python dicts keep insertion order). -/
def Dict.set {α : Type} : Dict α → String → α → Dict α
  | [], k, v => [(k, v)]
  | (k', v') :: t, k, v => if k' = k then (k, v) :: t else (k', v') :: Dict.set t k v
/-- Python's `m.setdefault(k, v)` (the returned value is recovered with
`Dict.lookup` afterwards). -/
def Dict.setdefault {α : Type} (m : Dict α) (k : String) (v : α) : Dict α :=
  match Dict.lookup m k with
  | some _ => m
  | none => m ++ [(k, v)]
/-- Explicit sequencing of fallible steps, the desugared form of the
statement-by-statement control flow of the Python functions: an error (a
raised exception) aborts the rest. -/
def ebind {ε α β : Type} (x : Except ε α) (f : α → Except ε β) : Except ε β :=
  match x with
  | .error e => .error e
  | .ok a => f a

deriving instance DecidableEq for Except

/-- Integer counter dictionary, the shape of every aggregate counter table in
the script. -/
abbrev Kv := Dict Int
/-- Dictionary increment `m[k] += v`: raises `KeyError` when `k` is absent,
exactly as Python does. -/
def Kv.incr (m : Kv) (k : String) (v : Int) : Except String Kv :=
  match Dict.lookup m k with
  | none => .error ("KeyError: " ++ k)
  | some x => .ok (Dict.set m k (x + v))
/-- Lexicographic comparison of character lists, the order Python uses on
strings. -/
def chars_le : List Char → List Char → Bool
  | [], _ => true
  | _ :: _, [] => false
  | a :: as, b :: bs => if a = b then chars_le as bs else decide (a < b)

/-- String comparison through the character lists. -/
def str_le (a b : String) : Bool :=
  chars_le a.data b.data

/-- Insert a string into a list, keeping ascending order. -/
def sorted_insert (s : String) : List String → List String
  | [] => [s]
  | h :: t => if str_le s h then s :: h :: t else h :: sorted_insert s t

/-- Ascending sort of a list of strings, as Python's `sort()` on the names of
compliance standards. -/
def sort_strings (l : List String) : List String :=
  l.foldr sorted_insert []

/-- Membership test on a list of strings. -/
def mem_str (s : String) : List String → Bool
  | [] => false
  | h :: t => if h = s then true else mem_str s t

/-- De-duplication of a list of strings (one occurrence per distinct
element), the effect of Python's `set(...)` before sorting. -/
def dedup_strings : List String → List String
  | [] => []
  | h :: t => if mem_str h t then dedup_strings t else h :: dedup_strings t
/-- A policy as it appears in the collected policies JSON file.  The fields
are the ones `process_policies` reads; `policyUpi` and `complianceMetadata`
are optional keys (the code tests their presence), and `complianceMetadata`
is flattened to its list of `standardName` values. -/
structure RawPolicy where
  policyId : String
  name : String
  enabled : Bool
  severity : String
  policyType : String
  policySubTypes : List String
  remediable : Bool
  systemDefault : Bool
  policyUpi : Option String
  openAlertsCount : Int
  complianceMetadata : Option (List String)
  deriving DecidableEq, Repr
/-- The per-policy record stored in `RESULTS['policies'][policy_id]`. -/
structure PolicyRec where
  policyName : String
  policyEnabled : Bool
  policySeverity : String
  policyType : String
  policyShiftable : Bool
  policyRemediable : Bool
  policySystemDefault : Bool
  policyUpi : String
  alertCount : Int
  complianceStandards : List String
  deriving DecidableEq, Repr
/-- The record stored in `RESULTS['policy_counts_from_alerts'][policy_name]`. -/
structure PcaRec where
  policyId : String
  alertCount : Int
  deriving DecidableEq, Repr
/-- An alert as it appears in the collected alerts JSON list (full-API path).
`process_alerts` reads the embedded copy of the policy (`alert['policy']`),
the status, and the optional `reason` key. -/
structure RawAlert where
  policyId : String
  policySystemDefault : Bool
  policyType : String
  policyRemediable : Bool
  status : String
  reason : Option String
  deriving DecidableEq, Repr
/-- The mutable `RESULTS` dictionary, restricted to the keys created by
`process_collected_data` and written by `process_policies` /
`process_alerts`.  `policies_disabled` is `none` because
`process_collected_data` never creates a `RESULTS['policies_disabled']`
entry (it creates only `policies_deleted`). -/
structure Results where
  policies_by_name : Dict String
  policies : Dict PolicyRec
  compliance_standards_counts_from_policies : Dict Kv
  alert_counts_from_policies : Kv
  compliance_standards_counts_from_alerts : Dict Kv
  policy_counts_from_alerts : Dict PcaRec
  policy_totals_by_alert : Kv
  alert_totals_by_alert : Kv
  policies_deleted : Kv
  policies_disabled : Option Kv
  deriving DecidableEq, Repr
/-- The pre-seeded `RESULTS['alert_counts_from_policies']` table
(lines 472-487 of the script). -/
def init_alert_counts_from_policies : Kv :=
  [("open", 0), ("open_high", 0), ("open_medium", 0), ("open_low", 0),
   ("anomaly", 0), ("audit_event", 0), ("config", 0), ("data", 0),
   ("iam", 0), ("network", 0), ("remediable", 0), ("shiftable", 0),
   ("custom", 0), ("default", 0)]
/-- The pre-seeded `RESULTS['policy_counts_from_alerts']`... rather
`RESULTS['policy_totals_by_alert']` table (lines 491-503). -/
def init_policy_counts_seed : Kv :=
  [("high", 0), ("medium", 0), ("low", 0),
   ("anomaly", 0), ("audit_event", 0), ("config", 0), ("data", 0),
   ("iam", 0), ("network", 0), ("custom", 0), ("default", 0)]
/-- The pre-seeded `RESULTS['alert_totals_by_alert']` table (lines 505-538).
Note the key `policy_disabled` (singular): the disabled-policy branch of
`process_alerts` later increments `policies_disabled` (plural), which is not
in this table. -/
def init_alert_totals_by_alert : Kv :=
  [("dismissed", 0), ("dismissed_high", 0), ("dismissed_medium", 0), ("dismissed_low", 0),
   ("open", 0), ("open_high", 0), ("open_medium", 0), ("open_low", 0),
   ("policy_deleted", 0), ("policy_disabled", 0),
   ("resolved", 0), ("resolved_high", 0), ("resolved_medium", 0), ("resolved_low", 0),
   ("resolved_deleted", 0), ("resolved_updated", 0),
   ("remediable", 0), ("remediable_open", 0), ("remediable_resolved", 0),
   ("snoozed", 0), ("snoozed_high", 0), ("snoozed_medium", 0), ("snoozed_low", 0),
   ("shiftable", 0),
   ("anomaly", 0), ("audit_event", 0), ("config", 0), ("data", 0),
   ("iam", 0), ("network", 0), ("custom", 0), ("default", 0)]
/-- The `RESULTS` state right after the seeding part of
`process_collected_data` (lines 469-539), before any policy or alert is
processed. -/
def initial_results : Results :=
  { policies_by_name := []
    policies := []
    compliance_standards_counts_from_policies := []
    alert_counts_from_policies := init_alert_counts_from_policies
    compliance_standards_counts_from_alerts := []
    policy_counts_from_alerts := []
    policy_totals_by_alert := init_policy_counts_seed
    alert_totals_by_alert := init_alert_totals_by_alert
    policies_deleted := []
    policies_disabled := none }
/-- The sorted, de-duplicated list of compliance-standard names a policy
declares (lines 608-615): empty when the `complianceMetadata` key is absent,
otherwise `sorted(list(set(...)))` of the declared standard names. -/
def standards_of (p : RawPolicy) : List String :=
  match p.complianceMetadata with
  | none => []
  | some l => sort_strings (dedup_strings l)
/-- The per-severity seed of one compliance-standard rollup row (lines 617
and 679). -/
def seed3 : Kv := [("high", 0), ("medium", 0), ("low", 0)]
/-- The shared shape of lines 616-618 and 678-680: for each standard name,
`setdefault` the per-severity row and then increment its `sev` bucket
by `c`. -/
def add_to_standards (m : Dict Kv) : List String → (sev : String) → (c : Int) →
    Except String (Dict Kv)
  | [], _, _ => .ok m
  | s :: rest, sev, c =>
    let m1 := Dict.setdefault m s seed3
    match Dict.lookup m1 s with
    | none => .error ("KeyError: " ++ s)
    | some row =>
      match Kv.incr row sev c with
      | .error e => .error e
      | .ok row2 => add_to_standards (Dict.set m1 s row2) rest sev c
/-- The per-policy record built by lines 574-595 and 608-615, including the
support-API substitution of the alert count (aggregated count when the
policy name appears in the aggregate table, else 0) versus the
`openAlertsCount` field on the full-API path. -/
def mk_policy_record (sm : Bool) (agg_by_policy : Kv) (p : RawPolicy) : PolicyRec :=
  { policyName := p.name
    policyEnabled := p.enabled
    policySeverity := p.severity
    policyType := p.policyType
    policyShiftable := p.policySubTypes.contains "build"
    policyRemediable := p.remediable
    policySystemDefault := p.systemDefault
    policyUpi := p.policyUpi.getD "CUSTOM"
    alertCount := if sm then (Dict.lookup agg_by_policy p.name).getD 0 else p.openAlertsCount
    complianceStandards := standards_of p }
/-- One iteration of the `process_policies` loop (lines 574-618). -/
def policy_step (sm : Bool) (agg_by_policy : Kv) (st : Results) (p : RawPolicy) :
    Except String Results :=
  let pol := mk_policy_record sm agg_by_policy p
  let c := pol.alertCount
  ebind (Kv.incr st.alert_counts_from_policies "open" c) fun ac1 =>
  ebind (Kv.incr ac1 ("open_" ++ p.severity) c) fun ac2 =>
  ebind (Kv.incr ac2 p.policyType c) fun ac3 =>
  ebind (if pol.policyRemediable then Kv.incr ac3 "remediable" c else .ok ac3) fun ac4 =>
  ebind (if pol.policyShiftable then Kv.incr ac4 "shiftable" c else .ok ac4) fun ac5 =>
  ebind (if pol.policySystemDefault then Kv.incr ac5 "default" c
         else Kv.incr ac5 "custom" c) fun ac6 =>
  ebind (match p.complianceMetadata with
         | none => .ok st.compliance_standards_counts_from_policies
         | some _ =>
             add_to_standards st.compliance_standards_counts_from_policies
               pol.complianceStandards p.severity c) fun csfp =>
  .ok { st with
        policies_by_name := Dict.set st.policies_by_name p.name p.policyId
        policies := Dict.set st.policies p.policyId pol
        alert_counts_from_policies := ac6
        compliance_standards_counts_from_policies := csfp }
/-- The `process_policies` loop (lines 573-618), folded over the policies
list, threading the mutable `RESULTS` state and surfacing any Python
`KeyError` as an `Except.error`. -/
def process_policies (sm : Bool) (agg_by_policy : Kv) (st : Results) :
    List RawPolicy → Except String Results
  | [] => .ok st
  | p :: rest =>
      ebind (policy_step sm agg_by_policy st p) fun st' =>
        process_policies sm agg_by_policy st' rest
/-- One iteration of the full-API `process_alerts` loop (lines 641-684).

`binding` is the value of the bare name `policies` used by the membership
test on line 658 (`if not this_policy_id in policies`).  In the script there
is no module-level binding of `policies` (the only `policies` is the local
parameter of `process_policies`), so at run time that line raises
`NameError`; the faithful entry point `process_alerts` therefore passes
`none`.  `process_alerts_fixed` passes the `RESULTS['policies']` table,
which is what line 667 and the surrounding comments indicate the test was
meant to consult. -/
def alert_step (binding : Option (Dict PolicyRec)) (st : Results) (a : RawAlert) :
    Except String Results :=
  ebind (if a.policySystemDefault then Kv.incr st.alert_totals_by_alert "default" 1
         else Kv.incr st.alert_totals_by_alert "custom" 1) fun at1 =>
  ebind (Kv.incr at1 a.policyType 1) fun at2 =>
  ebind (if a.policyRemediable then
           ebind (Kv.incr at2 "remediable" 1) fun x =>
             Kv.incr x ("remediable_" ++ a.status) 1
         else .ok at2) fun at3 =>
  ebind (Kv.incr at3 a.status 1) fun at4 =>
  ebind (match a.reason with
         | none => .ok at4
         | some r =>
             ebind (if r = "RESOURCE_DELETED" then Kv.incr at4 "resolved_deleted" 1
                    else .ok at4) fun y =>
               if r = "RESOURCE_UPDATED" then Kv.incr y "resolved_updated" 1
               else .ok y) fun at5 =>
  match binding with
  | none => .error "NameError: name policies is not defined"
  | some tbl =>
    match Dict.lookup tbl a.policyId with
    | none =>
        match a.reason with
        | none => .error "KeyError: reason"
        | some r =>
            if r = "POLICY_DELETED" then
              ebind (Kv.incr (Dict.setdefault st.policies_deleted a.policyId 0)
                       a.policyId 1) fun pd2 =>
              ebind (Kv.incr at5 "policy_deleted" 1) fun at6 =>
                .ok { st with alert_totals_by_alert := at6, policies_deleted := pd2 }
            else .ok { st with alert_totals_by_alert := at5 }
    | some _ =>
        match Dict.lookup st.policies a.policyId with
        | none => .error ("KeyError: " ++ a.policyId)
        | some pol =>
            let pname := pol.policyName
            let pca1 := Dict.setdefault st.policy_counts_from_alerts pname
                          { policyId := a.policyId, alertCount := 0 }
            ebind (match Dict.lookup pca1 pname with
                   | none => Except.error ("KeyError: " ++ pname)
                   | some r =>
                       Except.ok (Dict.set pca1 pname
                         { r with alertCount := r.alertCount + 1 })) fun pca2 =>
            ebind (Kv.incr st.policy_totals_by_alert pol.policySeverity 1) fun pt1 =>
            ebind (Kv.incr pt1 pol.policyType 1) fun pt2 =>
            ebind (if pol.policyEnabled = false then
                     match st.policies_disabled with
                     | none => Except.error "KeyError: policies_disabled"
                     | some dk =>
                         ebind (Kv.incr (Dict.setdefault dk pname 0) pname 1) fun dk2 =>
                         ebind (Kv.incr at5 "policies_disabled" 1) fun atx =>
                           .ok (some dk2, atx)
                   else .ok (st.policies_disabled, at5)) fun pdat =>
            ebind (add_to_standards st.compliance_standards_counts_from_alerts
                     pol.complianceStandards pol.policySeverity 1) fun csfa2 =>
            ebind (if pol.policyShiftable then Kv.incr pdat.2 "shiftable" 1
                   else .ok pdat.2) fun at7 =>
            ebind (Kv.incr at7 (a.status ++ "_" ++ pol.policySeverity) 1) fun at8 =>
              .ok { st with
                    policy_counts_from_alerts := pca2
                    policy_totals_by_alert := pt2
                    alert_totals_by_alert := at8
                    compliance_standards_counts_from_alerts := csfa2
                    policies_disabled := pdat.1 }
/-- The full-API `process_alerts` loop folded over the alerts list, with the
line-658 name binding passed explicitly. -/
def process_alerts_full (binding : Option (Dict PolicyRec)) (st : Results) :
    List RawAlert → Except String Results
  | [] => .ok st
  | a :: rest =>
      ebind (alert_step binding st a) fun st' =>
        process_alerts_full binding st' rest
/-- Faithful full-API `process_alerts` (lines 640-684): the name `policies`
on line 658 is unbound, so the membership test raises `NameError` for every
alert reaching it. -/
def process_alerts (st : Results) (alerts : List RawAlert) : Except String Results :=
  process_alerts_full none st alerts
/-- The full-API `process_alerts` with the line-658 membership test repaired
to consult the `RESULTS['policies']` table built by `process_policies`
(the reading that line 667, the surrounding comments, and the spec
describe).  The literal script differs only in that the test names an
undefined global. -/
def process_alerts_fixed (st : Results) (alerts : List RawAlert) : Except String Results :=
  process_alerts_full (some st.policies) st alerts
/-- Input of `process_aggregated_alerts`: the four aggregate responses
persisted by the support-API collector, each flattened to (group key, alert
count) pairs. -/
structure RawAggAlerts where
  by_policy : List (String × Int)
  by_policy_type : List (String × Int)
  by_policy_severity : List (String × Int)
  by_alert_status : List (String × Int)
  deriving DecidableEq, Repr
/-- The `alerts_by` dictionary built by `process_aggregated_alerts`. -/
structure AggregatedBy where
  policy : Kv
  type : Kv
  severity : Kv
  status : Kv
  deriving DecidableEq, Repr
/-- `process_aggregated_alerts` (lines 550-565): pre-seeds the `type` map
with anomaly, audit_event, config, data and iam (not network), the
`severity` map with high, medium and low, and the `status` map with open
and resolved, then overwrites from the four aggregate responses. -/
def process_aggregated_alerts (alerts : RawAggAlerts) : AggregatedBy :=
  { policy := alerts.by_policy.foldl (fun m i => Dict.set m i.1 i.2) []
    type := alerts.by_policy_type.foldl (fun m i => Dict.set m i.1 i.2)
      [("anomaly", 0), ("audit_event", 0), ("config", 0), ("data", 0), ("iam", 0)]
    severity := alerts.by_policy_severity.foldl (fun m i => Dict.set m i.1 i.2)
      [("high", 0), ("medium", 0), ("low", 0)]
    status := alerts.by_alert_status.foldl (fun m i => Dict.set m i.1 i.2)
      [("open", 0), ("resolved", 0)] }
/-- Dictionary read `m[k]` that raises `KeyError` when absent. -/
def dict_get (m : Kv) (k : String) : Except String Int :=
  match Dict.lookup m k with
  | none => .error ("KeyError: " ++ k)
  | some v => .ok v
/-- The support-API branch of `process_alerts` (lines 628-639): copies the
aggregated severity, type and status totals into
`RESULTS['policy_totals_by_alert']` and `RESULTS['alert_totals_by_alert']`.
Each read is a plain dictionary access which raises `KeyError` when the key
is absent from the aggregated map. -/
def process_alerts_support (agg : AggregatedBy) (st : Results) : Except String Results :=
  ebind (dict_get agg.severity "high") fun hi =>
  ebind (dict_get agg.severity "medium") fun md =>
  ebind (dict_get agg.severity "low") fun lo =>
  ebind (dict_get agg.type "anomaly") fun an =>
  ebind (dict_get agg.type "audit_event") fun au =>
  ebind (dict_get agg.type "config") fun cf =>
  ebind (dict_get agg.type "data") fun da =>
  ebind (dict_get agg.type "iam") fun ia =>
  ebind (dict_get agg.type "network") fun nw =>
  ebind (dict_get agg.status "open") fun op =>
  ebind (dict_get agg.status "resolved") fun rs =>
  let pt := Dict.set (Dict.set (Dict.set (Dict.set (Dict.set (Dict.set (Dict.set (Dict.set
    (Dict.set st.policy_totals_by_alert "high" hi) "medium" md) "low" lo) "anomaly" an)
    "audit_event" au) "config" cf) "data" da) "iam" ia) "network" nw
  let att := Dict.set (Dict.set st.alert_totals_by_alert "open" op) "resolved" rs
  .ok { st with policy_totals_by_alert := pt, alert_totals_by_alert := att }
/-- The full-API processing pipeline of `process_collected_data`
(lines 468-540, the summary step aside): seed the counter tables, run
`process_policies` (full-API alert counts), then the faithful
`process_alerts`. -/
def run_process (ps : List RawPolicy) (alerts : List RawAlert) : Except String Results :=
  ebind (process_policies false [] initial_results ps) fun st1 =>
    process_alerts st1 alerts
/-- Same pipeline as `run_process` but with the line-658 membership test of
`process_alerts` repaired to the `RESULTS['policies']` table. -/
def run_process_fixed (ps : List RawPolicy) (alerts : List RawAlert) : Except String Results :=
  ebind (process_policies false [] initial_results ps) fun st1 =>
    process_alerts_fixed st1 alerts
/-- A cloud account row as returned by the accounts endpoints, restricted to
the fields `get_accounts` and the utilization sheet read. -/
structure RawAccount where
  accountId : String
  accountType : String
  cloudType : String
  numberOfChildAccounts : Int
  enabled : Bool
  deriving DecidableEq, Repr
/-- `parse_account_children` (lines 351-359): every child row is kept; the
child row whose `accountId` equals the parent's (the endpoint reports the
parent inside its own children with zero children) gets the parent's
`numberOfChildAccounts`, all other child rows keep their own value. -/
def parse_account_children (account : RawAccount) : List RawAccount → List RawAccount
  | [] => []
  | c :: rest =>
      (if account.accountId = c.accountId
       then { c with numberOfChildAccounts := account.numberOfChildAccounts }
       else c) :: parse_account_children account rest
/-- Outcome of one API request, as seen by `make_api_call`. -/
inductive ApiResult (α : Type) where
  | ok (a : α)
  | httpError
  | transportError
  deriving DecidableEq
/-- `make_api_call` (lines 152-174): returns the response body on success and
calls `sys.exit(1)` (modelled as `Except.error` carrying the exit code) on a
non-success HTTP status or on a transport exception. -/
def make_api_call {α : Type} : ApiResult α → Except Nat α
  | .ok a => .ok a
  | .httpError => .error 1
  | .transportError => .error 1
/-- The flattening loop of `get_accounts` on the full-API path
(lines 337-344): accounts of type `organization` are replaced by their
parsed children (fetched with one follow-up request whose response is
`children_of accountId`), other accounts are kept as they are. -/
def get_accounts_flatten (children_of : String → ApiResult (List RawAccount)) :
    List RawAccount → Except Nat (List RawAccount)
  | [] => .ok []
  | acct :: rest =>
      if acct.accountType = "organization" then
        ebind (make_api_call (children_of acct.accountId)) fun kids =>
        ebind (get_accounts_flatten children_of rest) fun tail =>
          .ok (parse_account_children acct kids ++ tail)
      else
        ebind (get_accounts_flatten children_of rest) fun tail =>
          .ok (acct :: tail)
/-- Terminal result of the alert job in `get_alerts`. -/
inductive JobOutcome where
  | downloaded
  | failed
  | malformed
  deriving DecidableEq, Repr
/-- The status/download phase of the full-API `get_alerts` (lines 266-289),
abstracted over the sequence of `status` fields the successive status
requests return (`none` models a response without a `status` key).  The
result is `(status requests issued, outcome, download requests issued)`:
the code polls again while the status is IN_PROGRESS, downloads exactly
once on READY_TO_DOWNLOAD, reports and returns without downloading on a
missing status key or any other status value.  The result is `none` when
the supplied response list runs out while the job still reports
IN_PROGRESS (the real loop would simply keep polling). -/
def poll_job : List (Option String) → Option (Nat × JobOutcome × Nat)
  | [] => none
  | r :: rest =>
      match r with
      | none => some (1, .malformed, 0)
      | some s =>
          if s = "IN_PROGRESS" then
            match poll_job rest with
            | none => none
            | some (n, o, d) => some (n + 1, o, d)
          else if s = "READY_TO_DOWNLOAD" then some (1, .downloaded, 1)
          else some (1, .failed, 0)
/-- Scripted responses for one full-API collect run: one entry per request
`collect_data` issues, in order. -/
structure CollectScript where
  login : ApiResult (Option String)
  assets : ApiResult Unit
  policiesResp : ApiResult Unit
  alertSubmit : ApiResult (Option String)
  alertStatuses : List (ApiResult (Option String))
  alertDownload : ApiResult Unit
  users : ApiResult Unit
  accountsResp : ApiResult (List RawAccount)
  childrenOf : String → ApiResult (List RawAccount)
  groups : ApiResult Unit
  rules : ApiResult Unit
  integrations : ApiResult Unit
/-- Result of a whole run: `exit code`, normal completion of `collect_data`,
or a poll script that ran out (no corresponding real execution). -/
inductive RunResult where
  | exit (code : Nat)
  | finished
  | exhausted
  deriving DecidableEq, Repr
/-- Chain one `make_api_call` into a run: an API error becomes the exit, a
response body is passed on. -/
def seq_call {α : Type} (r : ApiResult α) (k : α → RunResult) : RunResult :=
  match make_api_call r with
  | .error c => .exit c
  | .ok a => k a
/-- The full-API `get_alerts` (lines 254-290) over scripted responses:
submit the job (a response without an `id` key is reported and the function
returns without exiting), then poll and download as `poll_job` describes,
where each status or download request can itself fail as an API error. -/
def get_alerts_collect (submit : ApiResult (Option String))
    (statuses : List (ApiResult (Option String))) (download : ApiResult Unit) :
    Option (Except Nat Unit) :=
  match make_api_call submit with
  | .error c => some (.error c)
  | .ok none => some (.ok ())
  | .ok (some _) => get_alerts_poll statuses download
where
  /-- Poll phase with fallible status requests. -/
  get_alerts_poll : List (ApiResult (Option String)) → ApiResult Unit →
      Option (Except Nat Unit)
    | [], _ => none
    | r :: rest, download =>
        match make_api_call r with
        | .error c => some (.error c)
        | .ok none => some (.ok ())
        | .ok (some s) =>
            if s = "IN_PROGRESS" then get_alerts_poll rest download
            else if s = "READY_TO_DOWNLOAD" then
              some (match make_api_call download with
                    | .error c => .error c
                    | .ok _ => .ok ())
            else some (.ok ())
/-- `collect_data` (lines 407-447) on the full-API path: login (a response
without a token exits with code 1), then the eight category queries in
order, aborting with exit code 1 on any API error, and — notably — merely
continuing past a malformed alert-job response. -/
def collect_data (s : CollectScript) : RunResult :=
  seq_call s.login fun tok =>
    match tok with
    | none => .exit 1
    | some _ =>
      seq_call s.assets fun _ =>
        seq_call s.policiesResp fun _ =>
          match get_alerts_collect s.alertSubmit s.alertStatuses s.alertDownload with
          | none => .exhausted
          | some (.error c) => .exit c
          | some (.ok _) =>
            seq_call s.users fun _ =>
              seq_call s.accountsResp fun accts =>
                match get_accounts_flatten s.childrenOf accts with
                | .error c => .exit c
                | .ok _ =>
                  seq_call s.groups fun _ =>
                    seq_call s.rules fun _ =>
                      seq_call s.integrations fun _ => .finished
/-- A collect-only run (`--mode collect`, lines 725-731): run
`collect_data`, then print the re-run instruction and `sys.exit(0)`. -/
def run_collect_only (s : CollectScript) : RunResult :=
  match collect_data s with
  | .finished => .exit 0
  | r => r
/-- The required-argument checks of `configure` (lines 103-113): in collect
or auto mode a missing `--url`, `--access_key` or `--secret_key` exits with
code 1 before any network activity. -/
def configure_required_check (mode : String)
    (url accessKey secretKey : Option String) : Except Nat Unit :=
  if mode = "auto" ∨ mode = "collect" then
    match url with
    | none => .error 1
    | some _ =>
      match accessKey with
      | none => .error 1
      | some _ =>
        match secretKey with
        | none => .error 1
        | some _ => .ok ()
  else .ok ()
/-- Lines 736-738: in process mode the effective `SUPPORT_API_MODE` is
forced to true when the persisted alerts file parsed to a dictionary, and is
otherwise left at the value the command-line flag gave it. -/
def support_api_mode_for_processing (flag : Bool) (alerts_is_dict : Bool) : Bool :=
  if alerts_is_dict then true else flag
/-- One row of the per-policy report sheets (header line 813/829: Policy,
Enabled, UPI, Severity, Type, With IAC, With Remediation, Alert Count,
Compliance Standards). -/
structure PolicyRow where
  policy : String
  enabled : Bool
  upi : String
  severity : String
  policyType : String
  with_iac : Bool
  with_remediation : Bool
  alertCount : Int
  complianceStandards : String
  deriving DecidableEq, Repr
/-- The row tuple both per-policy sheets append (lines 814-824 and 830-840):
`policy_is_remediable` is placed in both the With IAC and the With
Remediation columns, while the computed `policy_is_shiftable` value is not
used.  The two sheets differ only in the Alert Count source, passed here as
`alertCount`. -/
def policy_sheet_row (policyName : String) (pol : PolicyRec) (alertCount : Int) : PolicyRow :=
  { policy := policyName
    enabled := pol.policyEnabled
    upi := pol.policyUpi
    severity := pol.policySeverity
    policyType := pol.policyType
    with_iac := pol.policyRemediable
    with_remediation := pol.policyRemediable
    alertCount := alertCount
    complianceStandards := String.intercalate "," pol.complianceStandards }
/-- Row of the Open Alerts by Policy sheet (lines 814-824): alert count from
the policy record. -/
def open_alerts_by_policy_row (policyName : String) (pol : PolicyRec) : PolicyRow :=
  policy_sheet_row policyName pol pol.alertCount
/-- Row of the Open Closed Alerts by Policy sheet (lines 830-840): alert
count from `RESULTS['policy_counts_from_alerts']`. -/
def open_closed_alerts_by_policy_row (policyName : String) (pol : PolicyRec)
    (pca : PcaRec) : PolicyRow :=
  policy_sheet_row policyName pol pca.alertCount

/-- The documented severity values. -/
def severity_names : List String := ["high", "medium", "low"]

/-- The documented policy type values. -/
def type_names : List String := ["anomaly", "audit_event", "config", "data", "iam", "network"]

/-- The documented alert status values. -/
def status_names : List String := ["open", "resolved", "dismissed", "snoozed"]

/-- A policy whose severity and type fields take the documented values. -/
def valid_policy (p : RawPolicy) : Bool :=
  decide (p.severity ∈ severity_names) && decide (p.policyType ∈ type_names)

/-- The compliance-standard names a policy declares (the `standardName`
values of its `complianceMetadata`, before de-duplication). -/
def declared_standards (p : RawPolicy) : List String :=
  p.complianceMetadata.getD []

/-- Sum of the three severity buckets of one compliance-standard rollup
row. -/
def kv_sum3 (kv : Kv) : Int :=
  (Dict.lookup kv "high").getD 0 + (Dict.lookup kv "medium").getD 0 +
    (Dict.lookup kv "low").getD 0

/-- Total open-alert-count attribution of the policies list to standard `s`
on the full-API path: each policy declaring `s` contributes its
`openAlertsCount` once. -/
def policy_attribution (ps : List RawPolicy) (s : String) : Int :=
  (ps.map (fun p => if s ∈ declared_standards p then p.openAlertsCount else 0)).sum

/-- Total attribution of the alerts list to standard `s`: one per alert
whose policy identifier resolves in the policies list to a policy declaring
`s`. -/
def alert_attribution (ps : List RawPolicy) (alerts : List RawAlert) (s : String) : Int :=
  (alerts.map (fun a =>
    match ps.find? (fun p => p.policyId = a.policyId) with
    | some p => if s ∈ declared_standards p then (1 : Int) else 0
    | none => 0)).sum

/-- An alert, relative to a policies list, whose fields take the documented
values and which avoids the two latent missing-key defects of
`process_alerts`: its policy, when resolvable, is enabled (the
disabled-policy branch reads the never-created `policies_disabled` entries),
and a remediable alert is open or resolved (only `remediable_open` and
`remediable_resolved` are pre-seeded); a dangling alert carries a `reason`
(line 659 reads it unconditionally). -/
def valid_alert_for (ps : List RawPolicy) (a : RawAlert) : Bool :=
  decide (a.policyType ∈ type_names) && decide (a.status ∈ status_names) &&
    (!a.policyRemediable || (decide (a.status = "open") || decide (a.status = "resolved"))) &&
    (match ps.find? (fun p => p.policyId = a.policyId) with
     | some p => p.enabled
     | none => a.reason.isSome)

/-- A high-severity config policy with 5 open alerts declaring CIS and PCI
(PCI listed twice to exercise de-duplication). -/
def example_policy_high : RawPolicy :=
  { policyId := "p-high", name := "High Policy", enabled := true, severity := "high"
    policyType := "config", policySubTypes := ["run"], remediable := false
    systemDefault := true, policyUpi := some "PC-1", openAlertsCount := 5
    complianceMetadata := some ["CIS", "PCI", "PCI"] }

/-- A medium-severity network policy with 3 open alerts and no compliance
metadata. -/
def example_policy_medium : RawPolicy :=
  { policyId := "p-med", name := "Medium Policy", enabled := true, severity := "medium"
    policyType := "network", policySubTypes := ["build"], remediable := true
    systemDefault := false, policyUpi := none, openAlertsCount := 3
    complianceMetadata := none }

/-- A disabled high-severity config policy. -/
def example_policy_disabled : RawPolicy :=
  { policyId := "p-dis", name := "Disabled Policy", enabled := false, severity := "high"
    policyType := "config", policySubTypes := [], remediable := false
    systemDefault := true, policyUpi := some "PC-2", openAlertsCount := 0
    complianceMetadata := none }

/-- The scenario of the spec: two policies of severity high and medium with
open-alert counts 5 and 3. -/
def c3_scenario_policies : List RawPolicy :=
  [example_policy_high, example_policy_medium]

/-- An alert whose policy identifier resolves to `example_policy_high`. -/
def example_alert_resolvable : RawAlert :=
  { policyId := "p-high", policySystemDefault := true, policyType := "config"
    policyRemediable := false, status := "open", reason := none }

/-- An alert whose policy identifier is absent from the policy table, with
the policy-deleted reason. -/
def example_alert_dangling : RawAlert :=
  { policyId := "p-gone", policySystemDefault := true, policyType := "config"
    policyRemediable := false, status := "resolved", reason := some "POLICY_DELETED" }

/-- An alert referencing the disabled policy. -/
def example_alert_disabled_policy : RawAlert :=
  { policyId := "p-dis", policySystemDefault := true, policyType := "config"
    policyRemediable := false, status := "open", reason := none }

/-- An organization account declaring 2 child accounts. -/
def example_parent_account : RawAccount :=
  { accountId := "org-1", accountType := "organization", cloudType := "aws"
    numberOfChildAccounts := 2, enabled := true }

/-- The two rows the children endpoint returns for `example_parent_account`:
the parent itself (reported with zero children, line 355) and one real
child. -/
def example_children_response : List RawAccount :=
  [{ accountId := "org-1", accountType := "account", cloudType := "aws"
     numberOfChildAccounts := 0, enabled := true },
   { accountId := "child-1", accountType := "account", cloudType := "aws"
     numberOfChildAccounts := 0, enabled := true }]

/-- A collect script on which every request succeeds and the alert job is
ready at the first status poll. -/
def all_ok_script : CollectScript :=
  { login := .ok (some "token")
    assets := .ok ()
    policiesResp := .ok ()
    alertSubmit := .ok (some "job-1")
    alertStatuses := [.ok (some "READY_TO_DOWNLOAD")]
    alertDownload := .ok ()
    users := .ok ()
    accountsResp := .ok []
    childrenOf := fun _ => .ok []
    groups := .ok ()
    rules := .ok ()
    integrations := .ok () }

/-- The collect script whose alert-job submission response has no `id`
key. -/
def malformed_alert_job_script : CollectScript :=
  { all_ok_script with alertSubmit := .ok none }

/-- The collect script whose second alert-job status response has no
`status` key. -/
def malformed_status_script : CollectScript :=
  { all_ok_script with alertStatuses := [.ok (some "IN_PROGRESS"), .ok none] }

@[simp]
theorem Dict.lookup_nil {α : Type} (k : String) : Dict.lookup ([] : Dict α) k = none := rfl
theorem Dict.lookup_set {α : Type} (m : Dict α) (k : String) (v : α) (k2 : String) :
    Dict.lookup (Dict.set m k v) k2 = if k = k2 then some v else Dict.lookup m k2 := by
  induction m with
  | nil => simp [Dict.set, Dict.lookup]
  | cons h t ih =>
      obtain ⟨k', v'⟩ := h
      by_cases hk : k' = k
      · subst hk
        simp only [Dict.set, if_pos rfl, Dict.lookup]
        by_cases h2 : k' = k2 <;> simp [h2]
      · simp only [Dict.set, if_neg hk, Dict.lookup]
        by_cases h2 : k' = k2
        · have hne : ¬ k = k2 := fun h => hk (h2 ▸ h ▸ rfl)
          simp [h2, hne]
        · simp [h2, ih]
theorem Dict.lookup_append {α : Type} (m1 m2 : Dict α) (k : String) :
    Dict.lookup (m1 ++ m2) k =
      match Dict.lookup m1 k with
      | some v => some v
      | none => Dict.lookup m2 k := by
  induction m1 with
  | nil => simp [Dict.lookup]
  | cons h t ih =>
      obtain ⟨k', v'⟩ := h
      by_cases hk : k' = k <;> simp [Dict.lookup, hk, ih]
theorem Dict.lookup_setdefault {α : Type} (m : Dict α) (k : String) (v : α) (k2 : String) :
    Dict.lookup (Dict.setdefault m k v) k2 =
      if k = k2 then some ((Dict.lookup m k).getD v) else Dict.lookup m k2 := by
  unfold Dict.setdefault
  cases hm : Dict.lookup m k with
  | some x =>
      by_cases h2 : k = k2
      · subst h2; simp [hm]
      · simp [h2]
  | none =>
      rw [Dict.lookup_append]
      by_cases h2 : k = k2
      · subst h2; simp [hm, Dict.lookup]
      · cases hx : Dict.lookup m k2 <;> simp [hx, h2, Dict.lookup]
theorem Kv.incr_ok_of_lookup {m : Kv} {k : String} {x : Int} (h : Dict.lookup m k = some x)
    (v : Int) : Kv.incr m k v = .ok (Dict.set m k (x + v)) := by
  simp [Kv.incr, h]
theorem Kv.incr_error_of_lookup {m : Kv} {k : String} (h : Dict.lookup m k = none)
    (v : Int) : Kv.incr m k v = .error ("KeyError: " ++ k) := by
  simp [Kv.incr, h]
theorem Kv.incr_exists_ok {m : Kv} {k : String} (h : (Dict.lookup m k).isSome) (v : Int) :
    ∃ m', Kv.incr m k v = .ok m' := by
  cases hm : Dict.lookup m k with
  | none => rw [hm] at h; simp at h
  | some x => exact ⟨_, Kv.incr_ok_of_lookup hm v⟩
theorem Kv.lookup_of_incr_ok {m m' : Kv} {k : String} {v : Int}
    (h : Kv.incr m k v = .ok m') (k2 : String) :
    Dict.lookup m' k2 = if k = k2 then (Dict.lookup m k).map (· + v) else Dict.lookup m k2 := by
  unfold Kv.incr at h
  cases hm : Dict.lookup m k with
  | none => rw [hm] at h; simp at h
  | some x =>
      rw [hm] at h
      simp only [Except.ok.injEq] at h
      subst h
      rw [Dict.lookup_set]
      by_cases h2 : k = k2 <;> simp [h2, hm]
theorem Kv.lookup_of_incr_ok_ne {m m' : Kv} {k : String} {v : Int}
    (h : Kv.incr m k v = .ok m') {k2 : String} (hne : k ≠ k2) :
    Dict.lookup m' k2 = Dict.lookup m k2 := by
  rw [Kv.lookup_of_incr_ok h k2, if_neg hne]
theorem Kv.lookup_of_incr_ok_self {m m' : Kv} {k : String} {v : Int}
    (h : Kv.incr m k v = .ok m') :
    Dict.lookup m' k = (Dict.lookup m k).map (· + v) := by
  rw [Kv.lookup_of_incr_ok h k, if_pos rfl]
theorem Kv.isSome_of_incr_ok {m m' : Kv} {k : String} {v : Int}
    (h : Kv.incr m k v = .ok m') (k2 : String) :
    (Dict.lookup m' k2).isSome = (Dict.lookup m k2).isSome := by
  rw [Kv.lookup_of_incr_ok h k2]
  by_cases h2 : k = k2
  · subst h2
    simp only [if_pos rfl]
    cases Dict.lookup m k <;> simp
  · simp [h2]
@[simp]
theorem except_bind_ok {ε α β : Type} (a : α) (f : α → Except ε β) :
    (Except.ok a : Except ε α) >>= f = f a := rfl
@[simp]
theorem except_bind_error {ε α β : Type} (e : ε) (f : α → Except ε β) :
    (Except.error e : Except ε α) >>= f = Except.error e := rfl
@[simp]
theorem except_pure_eq {ε α : Type} (a : α) : (pure a : Except ε α) = Except.ok a := rfl
/-- Sum of the severity buckets of the rollup row of standard `s` (0 when the
standard has no row). -/
def sum3_of (m : Dict Kv) (s : String) : Int :=
  match Dict.lookup m s with
  | none => 0
  | some row => kv_sum3 row

/-- Every key of the pre-seeded `alert_counts_from_policies` table is
present. -/
def ac_keys_ok (ac : Kv) : Prop :=
  ∀ k : String, (Dict.lookup init_alert_counts_from_policies k).isSome = true →
    (Dict.lookup ac k).isSome = true

/-- Every row of a compliance rollup carries the three severity keys. -/
def rows3_ok (m : Dict Kv) : Prop :=
  ∀ (s : String) (row : Kv), Dict.lookup m s = some row →
    (Dict.lookup row "high").isSome = true ∧ (Dict.lookup row "medium").isSome = true ∧
      (Dict.lookup row "low").isSome = true

/-- The alert count `process_policies` accumulates for one policy
(`openAlertsCount` on the full-API path, the aggregated count in support
mode). -/
def policy_count (sm : Bool) (agg_by_policy : Kv) (p : RawPolicy) : Int :=
  (mk_policy_record sm agg_by_policy p).alertCount

/-- Total of the per-policy alert counts. -/
def open_total (sm : Bool) (agg_by_policy : Kv) (ps : List RawPolicy) : Int :=
  (ps.map (policy_count sm agg_by_policy)).sum

/-- Total of the per-policy alert counts attributed to the severity bucket
`k` (one of open_high / open_medium / open_low). -/
def sev_total (sm : Bool) (agg_by_policy : Kv) (ps : List RawPolicy) (k : String) : Int :=
  (ps.map (fun p =>
    if "open_" ++ p.severity = k then policy_count sm agg_by_policy p else 0)).sum

/-- Total attribution to standard `s` by occurrence count in the
de-duplicated standards lists. -/
def std_total (sm : Bool) (agg_by_policy : Kv) (ps : List RawPolicy) (s : String) : Int :=
  (ps.map (fun p =>
    (((standards_of p).count s : Int)) * policy_count sm agg_by_policy p)).sum

/-- The final `alert_counts_from_policies` bucket `k` after running
`process_policies` on the full-API path over `ps` (`none` when processing
raised). -/
def final_alert_counts (ps : List RawPolicy) (k : String) : Option Int :=
  match process_policies false [] initial_results ps with
  | .ok st => Dict.lookup st.alert_counts_from_policies k
  | .error _ => none

/-- Every key of the pre-seeded `alert_totals_by_alert` table is present. -/
def at_keys_ok (att : Kv) : Prop :=
  ∀ k : String, (Dict.lookup init_alert_totals_by_alert k).isSome = true →
    (Dict.lookup att k).isSome = true

/-- Every key of the pre-seeded `policy_totals_by_alert` table is present. -/
def pt_keys_ok (pt : Kv) : Prop :=
  ∀ k : String, (Dict.lookup init_policy_counts_seed k).isSome = true →
    (Dict.lookup pt k).isSome = true

/-- Total attribution of the alerts list to standard `s` through a policies
table: each alert whose embedded policy id resolves contributes the number
of occurrences of `s` in the resolved record's (de-duplicated) standards
list. -/
def alert_attrib_tbl (tbl : Dict PolicyRec) (alerts : List RawAlert) (s : String) : Int :=
  (alerts.map (fun a =>
    match Dict.lookup tbl a.policyId with
    | some pol => ((pol.complianceStandards.count s : Int))
    | none => 0)).sum

theorem count_sorted_insert (s : String) (l : List String) (a : String) :
    (sorted_insert s l).count a = (s :: l).count a := by
  induction l with
  | nil => rfl
  | cons h t ih =>
      unfold sorted_insert
      by_cases hle : str_le s h = true
      · simp [hle]
      · simp only [if_neg hle]
        rw [List.count_cons, List.count_cons, ih, List.count_cons, List.count_cons]
        ring
theorem mem_sorted_insert (s : String) (l : List String) (a : String) :
    a ∈ sorted_insert s l ↔ a ∈ s :: l := by
  rw [← List.count_pos_iff, ← List.count_pos_iff, count_sorted_insert]
theorem count_sort_strings (l : List String) (a : String) :
    (sort_strings l).count a = l.count a := by
  induction l with
  | nil => rfl
  | cons h t ih =>
      unfold sort_strings at ih ⊢
      rw [List.foldr_cons, count_sorted_insert, List.count_cons, List.count_cons, ih]
theorem mem_sort_strings (l : List String) (a : String) :
    a ∈ sort_strings l ↔ a ∈ l := by
  rw [← List.count_pos_iff, ← List.count_pos_iff, count_sort_strings]

@[simp]
theorem ebind_ok {ε α β : Type} (a : α) (f : α → Except ε β) :
    ebind (.ok a) f = f a := rfl

@[simp]
theorem ebind_error {ε α β : Type} (e : ε) (f : α → Except ε β) :
    ebind (.error e) f = .error e := rfl

theorem ebind_always_error {ε α β : Type} (x : Except ε α) (f : α → Except ε β)
    (h : ∀ a, ∃ e, f a = .error e) : ∃ e, ebind x f = .error e := by
  cases x with
  | error e => exact ⟨e, rfl⟩
  | ok a => simpa using h a

theorem alert_step_none_error (st : Results) (a : RawAlert) :
    ∃ e, alert_step none st a = .error e := by
  unfold alert_step
  refine ebind_always_error _ _ fun at1 => ?_
  refine ebind_always_error _ _ fun at2 => ?_
  refine ebind_always_error _ _ fun at3 => ?_
  refine ebind_always_error _ _ fun at4 => ?_
  refine ebind_always_error _ _ fun at5 => ?_
  exact ⟨_, rfl⟩

/-- C1: in the full-API path, the spec says an alert whose policy identifier
is absent from the policy table increments `policy_deleted` exactly once and
is otherwise dropped; in the script as written this accounting is
unreachable: the membership test on line 658 names `policies`, which is
bound nowhere at module scope, so processing any alert — the concrete
dangling alert included — raises `NameError` and no `policy_deleted`
increment ever happens. -/
theorem c1_policy_deleted_never_incremented :
    run_process [example_policy_high] [example_alert_dangling]
        = .error "NameError: name policies is not defined" ∧
    (∀ (st : Results) (alerts : List RawAlert), alerts ≠ [] →
      ∃ e, process_alerts st alerts = .error e) := by
  constructor
  · decide
  · intro st alerts hne
    cases alerts with
    | nil => exact absurd rfl hne
    | cons a rest =>
        obtain ⟨e, he⟩ := alert_step_none_error st a
        exact ⟨e, by simp [process_alerts, process_alerts_full, he]⟩

theorem c1_policy_deleted_never_incremented_witness :
    ([example_alert_dangling] ≠ ([] : List RawAlert)) ∧
    ∃ e, process_alerts initial_results [example_alert_dangling] = .error e :=
  ⟨by decide,
   c1_policy_deleted_never_incremented.2 initial_results [example_alert_dangling] (by decide)⟩

/-- C2: the spec's pre-seeded-keys invariant fails at the disabled-policy
branch: the pre-seeded `alert_totals_by_alert` table carries the key
`policy_disabled` and not the key `policies_disabled` the branch increments
(line 676), and `RESULTS` itself never gets a `policies_disabled` entry for
line 674 to read; processing an alert of a disabled policy (with the
line-658 membership test read as intended) therefore stops with a
`KeyError` instead of incrementing a pre-seeded counter. -/
theorem c2_policies_disabled_key_missing :
    Dict.lookup init_alert_totals_by_alert "policies_disabled" = none ∧
    Dict.lookup init_alert_totals_by_alert "policy_disabled" = some 0 ∧
    run_process_fixed [example_policy_disabled] [example_alert_disabled_policy]
      = .error "KeyError: policies_disabled" := by
  refine ⟨by decide, by decide, by decide⟩

/-- C5: the flattened account list does contain exactly the rows of the
children response, but only the child row whose identifier matches the
parent receives the parent's child-count; the other child keeps its own
value (0), refuting the claim that every child row carries the parent's
child-count. -/
theorem c5_counterexample :
    get_accounts_flatten (fun _ => ApiResult.ok example_children_response)
        [example_parent_account]
      = .ok [{ accountId := "org-1", accountType := "account", cloudType := "aws"
               numberOfChildAccounts := 2, enabled := true },
             { accountId := "child-1", accountType := "account", cloudType := "aws"
               numberOfChildAccounts := 0, enabled := true }] ∧
    ¬ (∀ r ∈ [({ accountId := "org-1", accountType := "account", cloudType := "aws"
                 numberOfChildAccounts := 2, enabled := true } : RawAccount),
              { accountId := "child-1", accountType := "account", cloudType := "aws"
                numberOfChildAccounts := 0, enabled := true }],
        r.numberOfChildAccounts = example_parent_account.numberOfChildAccounts) := by
  refine ⟨by decide, ?_⟩
  intro h
  have := h { accountId := "child-1", accountType := "account", cloudType := "aws"
              numberOfChildAccounts := 0, enabled := true } (by simp)
  simp [example_parent_account] at this

/-- C5 (amended): flattening an organization account yields exactly the rows
of the follow-up children response, where the row whose `accountId` equals
the parent's gets the parent's child-count and every other row keeps its
own. -/
theorem c5_flattening :
    (∀ (acct : RawAccount) (kids : List RawAccount),
      parse_account_children acct kids =
        kids.map (fun c =>
          if acct.accountId = c.accountId
          then { c with numberOfChildAccounts := acct.numberOfChildAccounts }
          else c)) ∧
    (∀ (acct : RawAccount) (kids : List RawAccount)
        (cf : String → ApiResult (List RawAccount)),
      acct.accountType = "organization" →
      cf acct.accountId = ApiResult.ok kids →
      get_accounts_flatten cf [acct] = .ok (parse_account_children acct kids) ∧
        (parse_account_children acct kids).length = kids.length) := by
  have hmap : ∀ (acct : RawAccount) (kids : List RawAccount),
      parse_account_children acct kids =
        kids.map (fun c =>
          if acct.accountId = c.accountId
          then { c with numberOfChildAccounts := acct.numberOfChildAccounts }
          else c) := by
    intro acct kids
    induction kids with
    | nil => rfl
    | cons c rest ih => simp [parse_account_children, ih]
  refine ⟨hmap, ?_⟩
  intro acct kids cf horg hcf
  constructor
  · simp [get_accounts_flatten, horg, hcf, make_api_call]
  · rw [hmap]
    simp

theorem c5_flattening_witness :
    example_parent_account.accountType = "organization" ∧
    (fun _ => ApiResult.ok example_children_response) example_parent_account.accountId
      = ApiResult.ok example_children_response ∧
    (get_accounts_flatten (fun _ => ApiResult.ok example_children_response)
        [example_parent_account]
      = .ok (parse_account_children example_parent_account example_children_response) ∧
      (parse_account_children example_parent_account example_children_response).length
        = example_children_response.length) :=
  ⟨rfl, rfl,
   c5_flattening.2 example_parent_account example_children_response
     (fun _ => ApiResult.ok example_children_response) rfl rfl⟩

/-- C6: the alert-job poll loop issues one status request per response,
re-polling while the status is IN_PROGRESS; on the scripted sequence
IN_PROGRESS, IN_PROGRESS, READY_TO_DOWNLOAD it issues exactly 3 status
requests and then exactly 1 download request, and in general
READY_TO_DOWNLOAD triggers exactly one download while any other terminal
status triggers none and reports failure. -/
theorem c6_poll_loop :
    poll_job [some "IN_PROGRESS", some "IN_PROGRESS", some "READY_TO_DOWNLOAD"]
      = some (3, .downloaded, 1) ∧
    (∀ n : Nat,
      poll_job (List.replicate n (some "IN_PROGRESS") ++ [some "READY_TO_DOWNLOAD"])
        = some (n + 1, .downloaded, 1)) ∧
    (∀ (n : Nat) (s : String), s ≠ "IN_PROGRESS" → s ≠ "READY_TO_DOWNLOAD" →
      poll_job (List.replicate n (some "IN_PROGRESS") ++ [some s])
        = some (n + 1, .failed, 0)) := by
  refine ⟨by decide, ?_, ?_⟩
  · intro n
    induction n with
    | zero => rfl
    | succ m ih => simp [List.replicate_succ, poll_job, ih]
  · intro n s hs1 hs2
    induction n with
    | zero => simp [poll_job, hs1, hs2]
    | succ m ih => simp [List.replicate_succ, poll_job, ih]

theorem c6_poll_loop_witness :
    ("FAILED" ≠ "IN_PROGRESS") ∧ ("FAILED" ≠ "READY_TO_DOWNLOAD") ∧
    poll_job (List.replicate 2 (some "IN_PROGRESS") ++ [some "FAILED"])
      = some (3, .failed, 0) :=
  ⟨by decide, by decide, c6_poll_loop.2.2 2 "FAILED" (by decide) (by decide)⟩

/-- C8: processing a dictionary-shaped alerts file does force the
restricted-API path regardless of the flag, but the converse direction of
the claim fails: with a list-shaped alerts file the flag supplied at the
process-mode invocation still selects the restricted path, so the selection
is not recovered from the file shape alone. -/
theorem c8_counterexample :
    support_api_mode_for_processing true false = true ∧
    support_api_mode_for_processing true false
      ≠ support_api_mode_for_processing false false := by
  decide

/-- C8 (amended): the restricted-API path is selected exactly when the
persisted alerts file parses to a dictionary or the capability flag was
supplied at the process-mode invocation; a dictionary-shaped file forces it
regardless of the flag. -/
theorem c8_flag_recovery :
    ∀ (flag alerts_is_dict : Bool),
      support_api_mode_for_processing flag alerts_is_dict = (alerts_is_dict || flag) ∧
      support_api_mode_for_processing flag true = true := by
  decide

/-- C9: both per-policy sheets place the policy's remediable flag in the
With IAC column — identical to the With Remediation column — and the row
tuple does not depend on the shiftable (build sub-type) flag at all. -/
theorem c9_with_iac_column :
    ∀ (nm : String) (pol : PolicyRec) (cnt : PcaRec),
      (open_alerts_by_policy_row nm pol).with_iac = pol.policyRemediable ∧
      (open_alerts_by_policy_row nm pol).with_iac
        = (open_alerts_by_policy_row nm pol).with_remediation ∧
      (open_closed_alerts_by_policy_row nm pol cnt).with_iac = pol.policyRemediable ∧
      (open_closed_alerts_by_policy_row nm pol cnt).with_iac
        = (open_closed_alerts_by_policy_row nm pol cnt).with_remediation ∧
      (∀ b : Bool,
        open_alerts_by_policy_row nm { pol with policyShiftable := b }
          = { open_alerts_by_policy_row nm pol with alertCount := pol.alertCount } ∧
        open_closed_alerts_by_policy_row nm { pol with policyShiftable := b } cnt
          = open_closed_alerts_by_policy_row nm pol cnt) := by
  intro nm pol cnt
  exact ⟨rfl, rfl, rfl, rfl, fun b => ⟨rfl, rfl⟩⟩

theorem foldl_set_lookup_isSome (l : List (String × Int)) (m : Kv) (k : String) :
    (Dict.lookup (List.foldl (fun m i => Dict.set m i.1 i.2) m l) k).isSome = true
      ↔ (Dict.lookup m k).isSome = true ∨ ∃ x ∈ l, x.1 = k := by
  induction l generalizing m with
  | nil => simp
  | cons i t ih =>
      rw [List.foldl_cons, ih]
      rw [Dict.lookup_set]
      by_cases h : i.1 = k
      · simp only [h, if_pos rfl, Option.isSome_some, List.mem_cons]
        constructor
        · intro _; exact Or.inr ⟨i, Or.inl rfl, h⟩
        · intro _; exact Or.inl rfl
      · simp only [if_neg h, List.mem_cons]
        constructor
        · rintro (hm | ⟨x, hx, hk⟩)
          · exact Or.inl hm
          · exact Or.inr ⟨x, Or.inr hx, hk⟩
        · rintro (hm | ⟨x, hx, hk⟩)
          · exact Or.inl hm
          · rcases hx with rfl | hx
            · exact absurd hk h
            · exact Or.inr ⟨x, hx, hk⟩

theorem process_alerts_support_ok_aux (agg : AggregatedBy) (st : Results)
    (h1 : (Dict.lookup agg.severity "high").isSome = true)
    (h2 : (Dict.lookup agg.severity "medium").isSome = true)
    (h3 : (Dict.lookup agg.severity "low").isSome = true)
    (h4 : (Dict.lookup agg.type "anomaly").isSome = true)
    (h5 : (Dict.lookup agg.type "audit_event").isSome = true)
    (h6 : (Dict.lookup agg.type "config").isSome = true)
    (h7 : (Dict.lookup agg.type "data").isSome = true)
    (h8 : (Dict.lookup agg.type "iam").isSome = true)
    (h10 : (Dict.lookup agg.status "open").isSome = true)
    (h11 : (Dict.lookup agg.status "resolved").isSome = true) :
    (∃ st', process_alerts_support agg st = .ok st')
      ↔ (Dict.lookup agg.type "network").isSome = true := by
  obtain ⟨v1, hv1⟩ := Option.isSome_iff_exists.mp h1
  obtain ⟨v2, hv2⟩ := Option.isSome_iff_exists.mp h2
  obtain ⟨v3, hv3⟩ := Option.isSome_iff_exists.mp h3
  obtain ⟨v4, hv4⟩ := Option.isSome_iff_exists.mp h4
  obtain ⟨v5, hv5⟩ := Option.isSome_iff_exists.mp h5
  obtain ⟨v6, hv6⟩ := Option.isSome_iff_exists.mp h6
  obtain ⟨v7, hv7⟩ := Option.isSome_iff_exists.mp h7
  obtain ⟨v8, hv8⟩ := Option.isSome_iff_exists.mp h8
  obtain ⟨v10, hv10⟩ := Option.isSome_iff_exists.mp h10
  obtain ⟨v11, hv11⟩ := Option.isSome_iff_exists.mp h11
  cases hn : Dict.lookup agg.type "network" with
  | none =>
      simp only [process_alerts_support, dict_get, hv1, hv2, hv3, hv4, hv5, hv6, hv7, hv8,
        hv10, hv11, hn, ebind_ok, ebind_error, Option.isSome_none]
      constructor
      · rintro ⟨st', hst⟩
        cases hst
      · intro h
        cases h
  | some vn =>
      simp only [process_alerts_support, dict_get, hv1, hv2, hv3, hv4, hv5, hv6, hv7, hv8,
        hv10, hv11, hn, ebind_ok, Option.isSome_some]
      exact ⟨fun _ => trivial, fun _ => ⟨_, rfl⟩⟩

theorem process_alerts_support_ok_iff (a : RawAggAlerts) (st : Results) :
    (∃ st', process_alerts_support (process_aggregated_alerts a) st = .ok st')
      ↔ ∃ x ∈ a.by_policy_type, x.1 = "network" := by
  have hseed : ∀ (k : String) (l : List (String × Int)) (seed : Kv),
      (Dict.lookup seed k).isSome = true →
      (Dict.lookup (List.foldl (fun m i => Dict.set m i.1 i.2) seed l) k).isSome = true :=
    fun k l seed h => (foldl_set_lookup_isSome l seed k).mpr (Or.inl h)
  rw [process_alerts_support_ok_aux (process_aggregated_alerts a) st
    (hseed _ _ _ (by decide)) (hseed _ _ _ (by decide)) (hseed _ _ _ (by decide))
    (hseed _ _ _ (by decide)) (hseed _ _ _ (by decide)) (hseed _ _ _ (by decide))
    (hseed _ _ _ (by decide)) (hseed _ _ _ (by decide))
    (hseed _ _ _ (by decide)) (hseed _ _ _ (by decide))]
  rw [show (process_aggregated_alerts a).type
      = List.foldl (fun m i => Dict.set m i.1 i.2)
          [("anomaly", 0), ("audit_event", 0), ("config", 0), ("data", 0), ("iam", 0)]
          a.by_policy_type from rfl]
  rw [foldl_set_lookup_isSome]
  rw [show Dict.lookup
      [(("anomaly" : String), (0 : Int)), ("audit_event", 0), ("config", 0), ("data", 0),
       ("iam", 0)] "network" = none from by decide]
  simp

/-- C10: `process_aggregated_alerts` pre-seeds the per-type counters only
for anomaly, audit_event, config, data and iam — network is absent — so the
network entry exists exactly when the aggregate-by-policy-type response
contains an entry for it, and the support-API branch of `process_alerts`
(which reads the network total) succeeds exactly under that precondition. -/
theorem c10_network_type_precondition :
    (process_aggregated_alerts
        { by_policy := [], by_policy_type := [], by_policy_severity := [],
          by_alert_status := [] }).type
      = [("anomaly", 0), ("audit_event", 0), ("config", 0), ("data", 0), ("iam", 0)] ∧
    (∀ a : RawAggAlerts,
      (Dict.lookup (process_aggregated_alerts a).type "network").isSome = true
        ↔ ∃ x ∈ a.by_policy_type, x.1 = "network") ∧
    (∀ (a : RawAggAlerts) (st : Results),
      (∃ st', process_alerts_support (process_aggregated_alerts a) st = .ok st')
        ↔ ∃ x ∈ a.by_policy_type, x.1 = "network") := by
  refine ⟨rfl, ?_, fun a st => process_alerts_support_ok_iff a st⟩
  intro a
  rw [show (process_aggregated_alerts a).type
      = List.foldl (fun m i => Dict.set m i.1 i.2)
          [("anomaly", 0), ("audit_event", 0), ("config", 0), ("data", 0), ("iam", 0)]
          a.by_policy_type from rfl]
  rw [foldl_set_lookup_isSome]
  rw [show Dict.lookup
      [(("anomaly" : String), (0 : Int)), ("audit_event", 0), ("config", 0), ("data", 0),
       ("iam", 0)] "network" = none from by decide]
  simp

theorem mem_str_true_iff (s : String) (l : List String) : mem_str s l = true ↔ s ∈ l := by
  induction l with
  | nil => simp [mem_str]
  | cons h t ih =>
      unfold mem_str
      by_cases hh : h = s
      · subst hh; simp
      · rw [if_neg hh, ih]
        constructor
        · exact fun h2 => List.mem_cons_of_mem _ h2
        · intro h2
          rcases List.mem_cons.mp h2 with rfl | h3
          · exact absurd rfl hh
          · exact h3

theorem count_dedup_strings (l : List String) (a : String) :
    (dedup_strings l).count a = if a ∈ l then 1 else 0 := by
  induction l with
  | nil => simp [dedup_strings]
  | cons h t ih =>
      unfold dedup_strings
      by_cases hm : mem_str h t = true
      · rw [if_pos hm, ih]
        have hht : h ∈ t := (mem_str_true_iff h t).mp hm
        by_cases ha : a = h
        · subst ha; simp [hht]
        · exact if_congr (by simp [List.mem_cons, ha]) rfl rfl
      · rw [if_neg hm, List.count_cons, ih]
        have hht : h ∉ t := fun hh => hm ((mem_str_true_iff h t).mpr hh)
        by_cases ha : a = h
        · subst ha
          simp [hht]
        · have hb : (a == h) = false := by
            rw [beq_eq_false_iff_ne]
            exact ha
          simp [hb, List.mem_cons, ha]
          exact fun hh => ha hh.symm

theorem mem_dedup_strings (l : List String) (a : String) :
    a ∈ dedup_strings l ↔ a ∈ l := by
  rw [← List.count_pos_iff, count_dedup_strings]
  by_cases h : a ∈ l <;> simp [h]

theorem count_standards_of (p : RawPolicy) (s : String) :
    (standards_of p).count s = if s ∈ declared_standards p then 1 else 0 := by
  unfold standards_of declared_standards
  cases p.complianceMetadata with
  | none => simp
  | some l => rw [count_sort_strings, count_dedup_strings]; simp

theorem mem_standards_of (p : RawPolicy) (s : String) :
    s ∈ standards_of p ↔ s ∈ declared_standards p := by
  unfold standards_of declared_standards
  cases p.complianceMetadata with
  | none => simp
  | some l => rw [mem_sort_strings, mem_dedup_strings]; simp

theorem lookup_some_of_incr_ok {m m' : Kv} {k : String} {v : Int}
    (h : Kv.incr m k v = .ok m') : ∃ x, Dict.lookup m k = some x := by
  unfold Kv.incr at h
  cases hl : Dict.lookup m k with
  | none => rw [hl] at h; cases h
  | some x => exact ⟨x, rfl⟩

theorem kv_sum3_incr {row row2 : Kv} {sev : String} {c : Int}
    (hsev : sev ∈ severity_names) (h : Kv.incr row sev c = .ok row2) :
    kv_sum3 row2 = kv_sum3 row + c := by
  obtain ⟨x, hx⟩ := lookup_some_of_incr_ok h
  have hself := Kv.lookup_of_incr_ok_self h
  simp only [severity_names, List.mem_cons, List.not_mem_nil, or_false] at hsev
  rcases hsev with rfl | rfl | rfl
  · unfold kv_sum3
    rw [hself, hx, Kv.lookup_of_incr_ok_ne h (by decide : ("high" : String) ≠ "medium"),
      Kv.lookup_of_incr_ok_ne h (by decide : ("high" : String) ≠ "low")]
    simp
    ring
  · unfold kv_sum3
    rw [hself, hx, Kv.lookup_of_incr_ok_ne h (by decide : ("medium" : String) ≠ "high"),
      Kv.lookup_of_incr_ok_ne h (by decide : ("medium" : String) ≠ "low")]
    simp
    ring
  · unfold kv_sum3
    rw [hself, hx, Kv.lookup_of_incr_ok_ne h (by decide : ("low" : String) ≠ "high"),
      Kv.lookup_of_incr_ok_ne h (by decide : ("low" : String) ≠ "medium")]
    simp
    ring

theorem kv_opt_incr_ok (b : Bool) (m : Kv) (k : String) (v : Int)
    (h : (Dict.lookup m k).isSome = true) :
    ∃ m', (if b then Kv.incr m k v else .ok m) = .ok m' ∧
      (∀ k2, k2 ≠ k → Dict.lookup m' k2 = Dict.lookup m k2) ∧
      (∀ k2, (Dict.lookup m' k2).isSome = (Dict.lookup m k2).isSome) := by
  cases b with
  | false => exact ⟨m, rfl, fun _ _ => rfl, fun _ => rfl⟩
  | true =>
      obtain ⟨m', hm'⟩ := Kv.incr_exists_ok h v
      exact ⟨m', by simp [hm'],
        fun k2 hk2 => Kv.lookup_of_incr_ok_ne hm' (fun hh => hk2 hh.symm),
        fun k2 => Kv.isSome_of_incr_ok hm' k2⟩

theorem kv_branch_incr_ok (b : Bool) (m : Kv) (k1 k2 : String) (v : Int)
    (h1 : (Dict.lookup m k1).isSome = true) (h2 : (Dict.lookup m k2).isSome = true) :
    ∃ m', (if b then Kv.incr m k1 v else Kv.incr m k2 v) = .ok m' ∧
      (∀ k3, k3 ≠ k1 → k3 ≠ k2 → Dict.lookup m' k3 = Dict.lookup m k3) ∧
      (∀ k3, (Dict.lookup m' k3).isSome = (Dict.lookup m k3).isSome) := by
  cases b with
  | false =>
      obtain ⟨m', hm'⟩ := Kv.incr_exists_ok h2 v
      exact ⟨m', by simp [hm'],
        fun k3 _ hk3 => Kv.lookup_of_incr_ok_ne hm' (fun hh => hk3 hh.symm),
        fun k3 => Kv.isSome_of_incr_ok hm' k3⟩
  | true =>
      obtain ⟨m', hm'⟩ := Kv.incr_exists_ok h1 v
      exact ⟨m', by simp [hm'],
        fun k3 hk3 _ => Kv.lookup_of_incr_ok_ne hm' (fun hh => hk3 hh.symm),
        fun k3 => Kv.isSome_of_incr_ok hm' k3⟩

theorem sum3_of_none {m : Dict Kv} {s : String} (h : Dict.lookup m s = none) :
    sum3_of m s = 0 := by
  unfold sum3_of
  rw [h]

theorem sum3_of_some {m : Dict Kv} {s : String} {row : Kv}
    (h : Dict.lookup m s = some row) : sum3_of m s = kv_sum3 row := by
  unfold sum3_of
  rw [h]

theorem add_to_standards_ok (sev : String) (c : Int) (hsev : sev ∈ severity_names) :
    ∀ (l : List String) (m : Dict Kv), rows3_ok m →
    ∃ m', add_to_standards m l sev c = .ok m' ∧ rows3_ok m' ∧
      (∀ s, (Dict.lookup m' s).isSome = true
        ↔ ((Dict.lookup m s).isSome = true ∨ s ∈ l)) ∧
      (∀ s, sum3_of m' s = sum3_of m s + (l.count s : Int) * c) := by
  intro l
  induction l with
  | nil =>
      intro m hm
      exact ⟨m, rfl, hm, fun s => by simp, fun s => by simp⟩
  | cons s0 rest ih =>
      intro m hm
      have hrowe : ∃ row, Dict.lookup (Dict.setdefault m s0 seed3) s0 = some row := by
        rw [Dict.lookup_setdefault, if_pos rfl]
        exact ⟨_, rfl⟩
      obtain ⟨row, hrow⟩ := hrowe
      have hrow3 : (Dict.lookup row "high").isSome = true ∧
          (Dict.lookup row "medium").isSome = true ∧
          (Dict.lookup row "low").isSome = true := by
        rw [Dict.lookup_setdefault, if_pos rfl] at hrow
        cases hm0 : Dict.lookup m s0 with
        | none =>
            rw [hm0] at hrow
            simp only [Option.getD, Option.some.injEq] at hrow
            subst hrow
            refine ⟨by decide, by decide, by decide⟩
        | some r0 =>
            rw [hm0] at hrow
            simp only [Option.getD, Option.some.injEq] at hrow
            subst hrow
            exact hm s0 r0 hm0
      have hsevkey : (Dict.lookup row sev).isSome = true := by
        have hsev3 := hsev
        simp only [severity_names, List.mem_cons, List.not_mem_nil, or_false] at hsev3
        rcases hsev3 with rfl | rfl | rfl
        · exact hrow3.1
        · exact hrow3.2.1
        · exact hrow3.2.2
      obtain ⟨row2, hrow2⟩ := Kv.incr_exists_ok hsevkey c
      have hstep : add_to_standards m (s0 :: rest) sev c
          = add_to_standards (Dict.set (Dict.setdefault m s0 seed3) s0 row2) rest sev c := by
        show (match Dict.lookup (Dict.setdefault m s0 seed3) s0 with
              | none => Except.error ("KeyError: " ++ s0)
              | some row =>
                match Kv.incr row sev c with
                | .error e => Except.error e
                | .ok row2 =>
                    add_to_standards (Dict.set (Dict.setdefault m s0 seed3) s0 row2)
                      rest sev c) = _
        rw [hrow]
        simp only [hrow2]
      have hm2 : rows3_ok (Dict.set (Dict.setdefault m s0 seed3) s0 row2) := by
        intro s r hr
        rw [Dict.lookup_set] at hr
        by_cases hss : s0 = s
        · rw [if_pos hss] at hr
          obtain rfl : row2 = r := by injection hr
          refine ⟨?_, ?_, ?_⟩
          · rw [Kv.isSome_of_incr_ok hrow2]; exact hrow3.1
          · rw [Kv.isSome_of_incr_ok hrow2]; exact hrow3.2.1
          · rw [Kv.isSome_of_incr_ok hrow2]; exact hrow3.2.2
        · rw [if_neg hss, Dict.lookup_setdefault] at hr
          by_cases hss2 : s0 = s
          · exact absurd hss2 hss
          · rw [if_neg hss2] at hr
            exact hm s r hr
      obtain ⟨m', hrun, hrows', hmem', hsum'⟩ := ih (Dict.set (Dict.setdefault m s0 seed3) s0 row2) hm2
      refine ⟨m', by rw [hstep]; exact hrun, hrows', ?_, ?_⟩
      · intro s
        rw [hmem' s]
        rw [Dict.lookup_set, Dict.lookup_setdefault]
        by_cases hss : s0 = s
        · subst hss
          simp
        · rw [if_neg hss, if_neg hss]
          simp only [List.mem_cons]
          constructor
          · rintro (hh | hh)
            · exact Or.inl hh
            · exact Or.inr (Or.inr hh)
          · rintro (hh | rfl | hh)
            · exact Or.inl hh
            · exact absurd rfl hss
            · exact Or.inr hh
      · intro s
        rw [hsum' s]
        have hsum0 : sum3_of (Dict.set (Dict.setdefault m s0 seed3) s0 row2) s
            = sum3_of m s + (if s = s0 then c else 0) := by
          by_cases hss : s0 = s
          · subst hss
            have hset : Dict.lookup (Dict.set (Dict.setdefault m s0 seed3) s0 row2) s0
                = some row2 := by
              rw [Dict.lookup_set, if_pos rfl]
            rw [sum3_of_some hset, kv_sum3_incr hsev hrow2, if_pos rfl]
            cases hm0 : Dict.lookup m s0 with
            | none =>
                rw [Dict.lookup_setdefault, if_pos rfl, hm0] at hrow
                simp only [Option.getD, Option.some.injEq] at hrow
                subst hrow
                rw [sum3_of_none hm0]
                have hseed0 : kv_sum3 seed3 = 0 := by decide
                rw [hseed0]
            | some r0 =>
                rw [Dict.lookup_setdefault, if_pos rfl, hm0] at hrow
                simp only [Option.getD, Option.some.injEq] at hrow
                subst hrow
                rw [sum3_of_some hm0]
          · have hset : Dict.lookup (Dict.set (Dict.setdefault m s0 seed3) s0 row2) s
                = Dict.lookup m s := by
              rw [Dict.lookup_set, if_neg hss, Dict.lookup_setdefault, if_neg hss]
            rw [if_neg (fun hh => hss hh.symm)]
            unfold sum3_of
            rw [hset]
            ring
        rw [hsum0, List.count_cons]
        by_cases hss : s = s0
        · simp only [hss, beq_self_eq_true, if_true, if_pos rfl]
          push_cast
          ring
        · have hb : (s == s0) = false := by rw [beq_eq_false_iff_ne]; exact hss
          simp [hb, hss]
          exact Or.inl (fun hh => hss hh.symm)

theorem policy_step_ok (sm : Bool) (agg : Kv) (st : Results) (p : RawPolicy)
    (hv : valid_policy p = true)
    (hac : ac_keys_ok st.alert_counts_from_policies)
    (hrows : rows3_ok st.compliance_standards_counts_from_policies) :
    ∃ st', policy_step sm agg st p = .ok st' ∧
      ac_keys_ok st'.alert_counts_from_policies ∧
      rows3_ok st'.compliance_standards_counts_from_policies ∧
      st'.policies = Dict.set st.policies p.policyId (mk_policy_record sm agg p) ∧
      st'.compliance_standards_counts_from_alerts
        = st.compliance_standards_counts_from_alerts ∧
      st'.policy_counts_from_alerts = st.policy_counts_from_alerts ∧
      st'.policy_totals_by_alert = st.policy_totals_by_alert ∧
      st'.alert_totals_by_alert = st.alert_totals_by_alert ∧
      st'.policies_deleted = st.policies_deleted ∧
      st'.policies_disabled = st.policies_disabled ∧
      Dict.lookup st'.alert_counts_from_policies "open"
        = (Dict.lookup st.alert_counts_from_policies "open").map
            (· + (mk_policy_record sm agg p).alertCount) ∧
      Dict.lookup st'.alert_counts_from_policies ("open_" ++ p.severity)
        = (Dict.lookup st.alert_counts_from_policies ("open_" ++ p.severity)).map
            (· + (mk_policy_record sm agg p).alertCount) ∧
      (∀ k, k ∈ (["open_high", "open_medium", "open_low"] : List String) →
        k ≠ "open_" ++ p.severity →
        Dict.lookup st'.alert_counts_from_policies k
          = Dict.lookup st.alert_counts_from_policies k) ∧
      (∀ s, (Dict.lookup st'.compliance_standards_counts_from_policies s).isSome = true
        ↔ ((Dict.lookup st.compliance_standards_counts_from_policies s).isSome = true
            ∨ s ∈ standards_of p)) ∧
      (∀ s, sum3_of st'.compliance_standards_counts_from_policies s
        = sum3_of st.compliance_standards_counts_from_policies s
          + ((standards_of p).count s : Int) * (mk_policy_record sm agg p).alertCount) := by
  have hv' := hv
  simp only [valid_policy, Bool.and_eq_true, decide_eq_true_eq] at hv'
  obtain ⟨hsev, hty⟩ := hv'
  have hsevcase : p.severity = "high" ∨ p.severity = "medium" ∨ p.severity = "low" := by
    simpa [severity_names] using hsev
  have htycase : p.policyType = "anomaly" ∨ p.policyType = "audit_event" ∨
      p.policyType = "config" ∨ p.policyType = "data" ∨ p.policyType = "iam" ∨
      p.policyType = "network" := by
    simpa [type_names] using hty
  have hne1 : ("open_" ++ p.severity) ≠ "open" := by
    rcases hsevcase with h | h | h <;> rw [h] <;> decide
  have hne2 : p.policyType ≠ "open" ∧ p.policyType ≠ "open_high" ∧
      p.policyType ≠ "open_medium" ∧ p.policyType ≠ "open_low" := by
    rcases htycase with h | h | h | h | h | h <;> rw [h] <;>
      exact ⟨by decide, by decide, by decide, by decide⟩
  have hne3 : ("open_" ++ p.severity) ≠ "remediable" ∧
      ("open_" ++ p.severity) ≠ "shiftable" ∧ ("open_" ++ p.severity) ≠ "default" ∧
      ("open_" ++ p.severity) ≠ "custom" := by
    rcases hsevcase with h | h | h <;> rw [h] <;>
      exact ⟨by decide, by decide, by decide, by decide⟩
  have hne4 : p.policyType ≠ ("open_" ++ p.severity) := by
    rcases hsevcase with h | h | h <;> rw [h]
    · exact hne2.2.1
    · exact hne2.2.2.1
    · exact hne2.2.2.2
  have hk2seed : (Dict.lookup init_alert_counts_from_policies ("open_" ++ p.severity)).isSome
      = true := by
    rcases hsevcase with h | h | h <;> rw [h] <;> decide
  have hk3seed : (Dict.lookup init_alert_counts_from_policies p.policyType).isSome = true := by
    rcases htycase with h | h | h | h | h | h <;> rw [h] <;> decide
  obtain ⟨ac1, hac1⟩ :=
    Kv.incr_exists_ok (hac "open" (by decide)) (mk_policy_record sm agg p).alertCount
  have trans1 : ∀ k, (Dict.lookup init_alert_counts_from_policies k).isSome = true →
      (Dict.lookup ac1 k).isSome = true := fun k hk => by
    rw [Kv.isSome_of_incr_ok hac1]; exact hac k hk
  obtain ⟨ac2, hac2⟩ := Kv.incr_exists_ok (trans1 _ hk2seed) (mk_policy_record sm agg p).alertCount
  have trans2 : ∀ k, (Dict.lookup init_alert_counts_from_policies k).isSome = true →
      (Dict.lookup ac2 k).isSome = true := fun k hk => by
    rw [Kv.isSome_of_incr_ok hac2]; exact trans1 k hk
  obtain ⟨ac3, hac3⟩ := Kv.incr_exists_ok (trans2 _ hk3seed) (mk_policy_record sm agg p).alertCount
  have trans3 : ∀ k, (Dict.lookup init_alert_counts_from_policies k).isSome = true →
      (Dict.lookup ac3 k).isSome = true := fun k hk => by
    rw [Kv.isSome_of_incr_ok hac3]; exact trans2 k hk
  obtain ⟨ac4, hac4eq, hac4ne, hac4some⟩ :=
    kv_opt_incr_ok (mk_policy_record sm agg p).policyRemediable ac3 "remediable"
      (mk_policy_record sm agg p).alertCount (trans3 _ (by decide))
  have trans4 : ∀ k, (Dict.lookup init_alert_counts_from_policies k).isSome = true →
      (Dict.lookup ac4 k).isSome = true := fun k hk => by
    rw [hac4some]; exact trans3 k hk
  obtain ⟨ac5, hac5eq, hac5ne, hac5some⟩ :=
    kv_opt_incr_ok (mk_policy_record sm agg p).policyShiftable ac4 "shiftable"
      (mk_policy_record sm agg p).alertCount (trans4 _ (by decide))
  have trans5 : ∀ k, (Dict.lookup init_alert_counts_from_policies k).isSome = true →
      (Dict.lookup ac5 k).isSome = true := fun k hk => by
    rw [hac5some]; exact trans4 k hk
  obtain ⟨ac6, hac6eq, hac6ne, hac6some⟩ :=
    kv_branch_incr_ok (mk_policy_record sm agg p).policySystemDefault ac5 "default" "custom"
      (mk_policy_record sm agg p).alertCount (trans5 _ (by decide)) (trans5 _ (by decide))
  have hcsfp : ∃ csfp', (match p.complianceMetadata with
      | none => Except.ok st.compliance_standards_counts_from_policies
      | some _ =>
          add_to_standards st.compliance_standards_counts_from_policies
            (mk_policy_record sm agg p).complianceStandards p.severity
            (mk_policy_record sm agg p).alertCount) = .ok csfp' ∧
      rows3_ok csfp' ∧
      (∀ s, (Dict.lookup csfp' s).isSome = true
        ↔ ((Dict.lookup st.compliance_standards_counts_from_policies s).isSome = true
            ∨ s ∈ standards_of p)) ∧
      (∀ s, sum3_of csfp' s = sum3_of st.compliance_standards_counts_from_policies s
        + ((standards_of p).count s : Int) * (mk_policy_record sm agg p).alertCount) := by
    cases hcm : p.complianceMetadata with
    | none =>
        refine ⟨st.compliance_standards_counts_from_policies, rfl, hrows, ?_, ?_⟩
        · intro s
          have : standards_of p = [] := by unfold standards_of; rw [hcm]
          simp [this]
        · intro s
          have : standards_of p = [] := by unfold standards_of; rw [hcm]
          simp [this]
    | some l =>
        obtain ⟨m', hrun, hrows', hmem', hsum'⟩ :=
          add_to_standards_ok p.severity (mk_policy_record sm agg p).alertCount hsev
            (mk_policy_record sm agg p).complianceStandards
            st.compliance_standards_counts_from_policies hrows
        have hstd : (mk_policy_record sm agg p).complianceStandards = standards_of p := rfl
        exact ⟨m', hrun, hrows', fun s => by rw [hmem' s, hstd], fun s => by rw [hsum' s, hstd]⟩
  obtain ⟨csfp', hcsfprun, hcsfprows, hcsfpmem, hcsfpsum⟩ := hcsfp
  refine ⟨{ st with
            policies_by_name := Dict.set st.policies_by_name p.name p.policyId
            policies := Dict.set st.policies p.policyId (mk_policy_record sm agg p)
            alert_counts_from_policies := ac6
            compliance_standards_counts_from_policies := csfp' }, ?_, ?_, hcsfprows,
    rfl, rfl, rfl, rfl, rfl, rfl, rfl, ?_, ?_, ?_, hcsfpmem, hcsfpsum⟩
  · show ebind (Kv.incr st.alert_counts_from_policies "open"
        (mk_policy_record sm agg p).alertCount) _ = _
    rw [hac1]
    simp only [ebind_ok]
    rw [hac2]
    simp only [ebind_ok]
    rw [hac3]
    simp only [ebind_ok]
    rw [hac4eq]
    simp only [ebind_ok]
    rw [hac5eq]
    simp only [ebind_ok]
    rw [hac6eq]
    simp only [ebind_ok]
    rw [hcsfprun]
    simp only [ebind_ok]
  · intro k hk
    rw [hac6some, hac5some, hac4some, Kv.isSome_of_incr_ok hac3,
      Kv.isSome_of_incr_ok hac2, Kv.isSome_of_incr_ok hac1]
    exact hac k hk
  · show Dict.lookup ac6 "open" = _
    rw [hac6ne "open" (by decide) (by decide), hac5ne "open" (by decide),
      hac4ne "open" (by decide),
      Kv.lookup_of_incr_ok_ne hac3 hne2.1,
      Kv.lookup_of_incr_ok_ne hac2 hne1,
      Kv.lookup_of_incr_ok_self hac1]
  · show Dict.lookup ac6 ("open_" ++ p.severity) = _
    rw [hac6ne _ (fun h => hne3.2.2.1 h) (fun h => hne3.2.2.2 h),
      hac5ne _ (fun h => hne3.2.1 h), hac4ne _ (fun h => hne3.1 h),
      Kv.lookup_of_incr_ok_ne hac3 hne4,
      Kv.lookup_of_incr_ok_self hac2,
      Kv.lookup_of_incr_ok_ne hac1 (fun h => hne1 h.symm)]
  · intro k hkmem hkne
    have hkc : k = "open_high" ∨ k = "open_medium" ∨ k = "open_low" := by
      simpa using hkmem
    have hkrem : k ≠ "remediable" ∧ k ≠ "shiftable" ∧ k ≠ "default" ∧ k ≠ "custom"
        ∧ k ≠ "open" := by
      rcases hkc with h | h | h <;> rw [h] <;>
        exact ⟨by decide, by decide, by decide, by decide, by decide⟩
    show Dict.lookup ac6 k = _
    rw [hac6ne k hkrem.2.2.1 hkrem.2.2.2.1, hac5ne k hkrem.2.1, hac4ne k hkrem.1,
      Kv.lookup_of_incr_ok_ne hac3 (by
        rcases hkc with h | h | h <;> rw [h]
        · exact fun hh => hne2.2.1 hh
        · exact fun hh => hne2.2.2.1 hh
        · exact fun hh => hne2.2.2.2 hh),
      Kv.lookup_of_incr_ok_ne hac2 (fun h => hkne h.symm),
      Kv.lookup_of_incr_ok_ne hac1 (fun h => hkrem.2.2.2.2 h.symm)]

theorem process_policies_ok (sm : Bool) (agg : Kv) :
    ∀ (ps : List RawPolicy) (st : Results), ps.all valid_policy = true →
    ac_keys_ok st.alert_counts_from_policies →
    rows3_ok st.compliance_standards_counts_from_policies →
    ∃ st', process_policies sm agg st ps = .ok st' ∧
      ac_keys_ok st'.alert_counts_from_policies ∧
      rows3_ok st'.compliance_standards_counts_from_policies ∧
      st'.policies = ps.foldl
        (fun t p => Dict.set t p.policyId (mk_policy_record sm agg p)) st.policies ∧
      st'.compliance_standards_counts_from_alerts
        = st.compliance_standards_counts_from_alerts ∧
      st'.policy_counts_from_alerts = st.policy_counts_from_alerts ∧
      st'.policy_totals_by_alert = st.policy_totals_by_alert ∧
      st'.alert_totals_by_alert = st.alert_totals_by_alert ∧
      st'.policies_deleted = st.policies_deleted ∧
      st'.policies_disabled = st.policies_disabled ∧
      Dict.lookup st'.alert_counts_from_policies "open"
        = (Dict.lookup st.alert_counts_from_policies "open").map
            (· + open_total sm agg ps) ∧
      (∀ k, k ∈ (["open_high", "open_medium", "open_low"] : List String) →
        Dict.lookup st'.alert_counts_from_policies k
          = (Dict.lookup st.alert_counts_from_policies k).map
              (· + sev_total sm agg ps k)) ∧
      (∀ s, (Dict.lookup st'.compliance_standards_counts_from_policies s).isSome = true
        ↔ ((Dict.lookup st.compliance_standards_counts_from_policies s).isSome = true
            ∨ ∃ p ∈ ps, s ∈ standards_of p)) ∧
      (∀ s, sum3_of st'.compliance_standards_counts_from_policies s
        = sum3_of st.compliance_standards_counts_from_policies s
          + std_total sm agg ps s) := by
  intro ps
  induction ps with
  | nil =>
      intro st _ hac hrows
      refine ⟨st, rfl, hac, hrows, rfl, rfl, rfl, rfl, rfl, rfl, rfl, ?_, ?_, ?_, ?_⟩
      · cases Dict.lookup st.alert_counts_from_policies "open" <;>
          simp [open_total]
      · intro k _
        cases Dict.lookup st.alert_counts_from_policies k <;>
          simp [sev_total]
      · intro s
        simp
      · intro s
        simp [std_total]
  | cons p rest ih =>
      intro st hall hac hrows
      have hall' := hall
      simp only [List.all_cons, Bool.and_eq_true] at hall'
      obtain ⟨hvp, hvrest⟩ := hall'
      obtain ⟨st1, hrun1, hac1, hrows1, hpol1, hcsfa1, hpca1, hpt1, hat1, hpd1, hpdis1,
        hopen1, hsev1eff, hother1, hmem1, hsum1⟩ := policy_step_ok sm agg st p hvp hac hrows
      obtain ⟨st', hrun', hac', hrows', hpol', hcsfa', hpca', hpt', hat', hpd', hpdis',
        hopen', hsevs', hmem', hsum'⟩ := ih st1 hvrest hac1 hrows1
      refine ⟨st', ?_, hac', hrows', ?_, ?_, ?_, ?_, ?_, ?_, ?_, ?_, ?_, ?_, ?_⟩
      · show ebind (policy_step sm agg st p) _ = _
        rw [hrun1]
        simp only [ebind_ok]
        exact hrun'
      · rw [hpol', hpol1, List.foldl_cons]
      · rw [hcsfa', hcsfa1]
      · rw [hpca', hpca1]
      · rw [hpt', hpt1]
      · rw [hat', hat1]
      · rw [hpd', hpd1]
      · rw [hpdis', hpdis1]
      · rw [hopen', hopen1]
        cases Dict.lookup st.alert_counts_from_policies "open" <;>
          simp [open_total, policy_count] <;> ring
      · intro k hk
        rw [hsevs' k hk]
        by_cases hks : "open_" ++ p.severity = k
        · rw [← hks, hsev1eff]
          cases Dict.lookup st.alert_counts_from_policies ("open_" ++ p.severity) <;>
            simp [sev_total, policy_count] <;> ring
        · rw [hother1 k hk (fun h => hks h.symm)]
          cases Dict.lookup st.alert_counts_from_policies k <;>
            simp [sev_total, policy_count, hks]
      · intro s
        rw [hmem' s, hmem1 s]
        simp only [List.mem_cons]
        constructor
        · rintro ((hh | hh) | ⟨q, hq, hs⟩)
          · exact Or.inl hh
          · exact Or.inr ⟨p, Or.inl rfl, hh⟩
          · exact Or.inr ⟨q, Or.inr hq, hs⟩
        · rintro (hh | ⟨q, (rfl | hq), hs⟩)
          · exact Or.inl (Or.inl hh)
          · exact Or.inl (Or.inr hs)
          · exact Or.inr ⟨q, hq, hs⟩
      · intro s
        rw [hsum' s, hsum1 s]
        simp [std_total, policy_count]
        ring

theorem open_total_eq_sev_totals (sm : Bool) (agg : Kv) :
    ∀ ps : List RawPolicy, ps.all valid_policy = true →
    open_total sm agg ps = sev_total sm agg ps "open_high"
      + sev_total sm agg ps "open_medium" + sev_total sm agg ps "open_low" := by
  intro ps
  induction ps with
  | nil => intro _; simp [open_total, sev_total]
  | cons p rest ih =>
      intro h
      simp only [List.all_cons, Bool.and_eq_true] at h
      obtain ⟨hp, hrest⟩ := h
      have ihr := ih hrest
      have hp' := hp
      simp only [valid_policy, Bool.and_eq_true, decide_eq_true_eq] at hp'
      have hsevcase : p.severity = "high" ∨ p.severity = "medium" ∨ p.severity = "low" := by
        simpa [severity_names] using hp'.1
      simp only [open_total, sev_total, List.map_cons, List.sum_cons] at ihr ⊢
      rcases hsevcase with h | h | h <;> rw [h]
      · rw [if_pos (by decide), if_neg (by decide), if_neg (by decide)]
        omega
      · rw [if_neg (by decide), if_pos (by decide), if_neg (by decide)]
        omega
      · rw [if_neg (by decide), if_neg (by decide), if_pos (by decide)]
        omega

/-- C3: after `process_policies` runs over policies with documented severity
and type values, the `open` bucket of `alert_counts_from_policies` equals
the sum of the `open_high`, `open_medium` and `open_low` buckets, and on the
scenario of two policies of severity high and medium with open-alert counts
5 and 3 the buckets are open = 8, open_high = 5, open_medium = 3,
open_low = 0. -/
theorem c3_open_severity_sum :
    (∀ ps : List RawPolicy, ps.all valid_policy = true →
      ∃ st, process_policies false [] initial_results ps = .ok st ∧
        ∃ a b c : Int,
          Dict.lookup st.alert_counts_from_policies "open_high" = some a ∧
          Dict.lookup st.alert_counts_from_policies "open_medium" = some b ∧
          Dict.lookup st.alert_counts_from_policies "open_low" = some c ∧
          Dict.lookup st.alert_counts_from_policies "open" = some (a + b + c)) ∧
    (final_alert_counts c3_scenario_policies "open" = some 8 ∧
      final_alert_counts c3_scenario_policies "open_high" = some 5 ∧
      final_alert_counts c3_scenario_policies "open_medium" = some 3 ∧
      final_alert_counts c3_scenario_policies "open_low" = some 0) := by
  constructor
  · intro ps hall
    have hrows0 : rows3_ok initial_results.compliance_standards_counts_from_policies :=
      fun s row h => by simp [initial_results, Dict.lookup] at h
    obtain ⟨st, hrun, _, _, _, _, _, _, _, _, _, hopen, hsevs, _, _⟩ :=
      process_policies_ok false [] ps initial_results hall (fun _ hk => hk) hrows0
    have e1 := hsevs "open_high" (by simp)
    have e2 := hsevs "open_medium" (by simp)
    have e3 := hsevs "open_low" (by simp)
    rw [show Dict.lookup initial_results.alert_counts_from_policies "open_high"
        = some (0 : Int) from by decide] at e1
    rw [show Dict.lookup initial_results.alert_counts_from_policies "open_medium"
        = some (0 : Int) from by decide] at e2
    rw [show Dict.lookup initial_results.alert_counts_from_policies "open_low"
        = some (0 : Int) from by decide] at e3
    rw [show Dict.lookup initial_results.alert_counts_from_policies "open"
        = some (0 : Int) from by decide] at hopen
    simp only [Option.map_some'] at e1 e2 e3 hopen
    refine ⟨st, hrun, 0 + sev_total false [] ps "open_high",
      0 + sev_total false [] ps "open_medium", 0 + sev_total false [] ps "open_low",
      e1, e2, e3, ?_⟩
    rw [hopen]
    exact congrArg some (by
      have := open_total_eq_sev_totals false [] ps hall
      omega)
  · exact ⟨by decide, by decide, by decide, by decide⟩

theorem c3_open_severity_sum_witness :
    (c3_scenario_policies.all valid_policy = true) ∧
    (∃ st, process_policies false [] initial_results c3_scenario_policies = .ok st ∧
      ∃ a b c : Int,
        Dict.lookup st.alert_counts_from_policies "open_high" = some a ∧
        Dict.lookup st.alert_counts_from_policies "open_medium" = some b ∧
        Dict.lookup st.alert_counts_from_policies "open_low" = some c ∧
        Dict.lookup st.alert_counts_from_policies "open" = some (a + b + c)) :=
  ⟨by decide, c3_open_severity_sum.1 c3_scenario_policies (by decide)⟩

/-- C7: the claim says the process exits with code 1 on a malformed response
from the alert-job endpoints; in fact `get_alerts` only prints the error and
returns (lines 262-264), the remaining categories are still collected, and
the collect-only run then exits 0. -/
theorem c7_counterexample :
    run_collect_only malformed_alert_job_script = .exit 0 ∧
    RunResult.exit 0 ≠ RunResult.exit 1 := by
  exact ⟨by decide, by decide⟩

/-- C7 (amended): the process exits with code 1 on any non-success HTTP
response or transport failure (every `make_api_call`), on a login response
without a token, and on any missing required argument (`--url`,
`--access_key` or `--secret_key`) in collect or auto mode; a malformed
alert-job response — a submission response without an `id` key or a poll
status response without a `status` key — is reported and skipped without
exiting, so a collect-only run exits 0, as it does after a fully successful
collection. -/
theorem c7_exit_behavior :
    (∀ (α : Type) (r : ApiResult α), r = .httpError ∨ r = .transportError →
      make_api_call r = .error 1) ∧
    (∀ (mode : String) (url ak sk : Option String),
      mode = "auto" ∨ mode = "collect" →
      url = none ∨ ak = none ∨ sk = none →
      configure_required_check mode url ak sk = .error 1) ∧
    run_collect_only all_ok_script = .exit 0 ∧
    run_collect_only malformed_alert_job_script = .exit 0 ∧
    run_collect_only malformed_status_script = .exit 0 ∧
    run_collect_only { all_ok_script with users := .httpError } = .exit 1 ∧
    run_collect_only { all_ok_script with login := .transportError } = .exit 1 ∧
    run_collect_only { all_ok_script with login := .ok none } = .exit 1 := by
  refine ⟨?_, ?_, by decide, by decide, by decide, by decide, by decide, by decide⟩
  · rintro α r (rfl | rfl) <;> rfl
  · intro mode url ak sk hm hmiss
    unfold configure_required_check
    rw [if_pos hm]
    cases url with
    | none => rfl
    | some u =>
        cases ak with
        | none => rfl
        | some a2 =>
            cases sk with
            | none => rfl
            | some s2 =>
                rcases hmiss with h | h | h
                all_goals exact Option.noConfusion h

theorem c7_exit_behavior_witness :
    ((ApiResult.httpError : ApiResult Unit) = .httpError ∨
      (ApiResult.httpError : ApiResult Unit) = .transportError) ∧
    make_api_call (ApiResult.httpError : ApiResult Unit) = .error 1 ∧
    (("collect" : String) = "auto" ∨ ("collect" : String) = "collect") ∧
    configure_required_check "collect" none (some "ak") (some "sk") = .error 1 ∧
    configure_required_check "collect" (some "u") none (some "sk") = .error 1 ∧
    configure_required_check "auto" (some "u") (some "ak") none = .error 1 :=
  ⟨Or.inl rfl, c7_exit_behavior.1 Unit ApiResult.httpError (Or.inl rfl), Or.inr rfl,
    c7_exit_behavior.2.1 "collect" none (some "ak") (some "sk") (Or.inr rfl)
      (Or.inl rfl),
    c7_exit_behavior.2.1 "collect" (some "u") none (some "sk") (Or.inr rfl)
      (Or.inr (Or.inl rfl)),
    c7_exit_behavior.2.1 "auto" (some "u") (some "ak") none (Or.inl rfl)
      (Or.inr (Or.inr rfl))⟩

theorem kv_opt_incr_prop_ok (c : Prop) [Decidable c] (m : Kv) (k : String) (v : Int)
    (h : (Dict.lookup m k).isSome = true) :
    ∃ m', (if c then Kv.incr m k v else .ok m) = .ok m' ∧
      (∀ k2, k2 ≠ k → Dict.lookup m' k2 = Dict.lookup m k2) ∧
      (∀ k2, (Dict.lookup m' k2).isSome = (Dict.lookup m k2).isSome) := by
  by_cases hc : c
  · obtain ⟨m', hm'⟩ := Kv.incr_exists_ok h v
    exact ⟨m', by rw [if_pos hc]; exact hm',
      fun k2 hk2 => Kv.lookup_of_incr_ok_ne hm' (fun hh => hk2 hh.symm),
      fun k2 => Kv.isSome_of_incr_ok hm' k2⟩
  · exact ⟨m, by rw [if_neg hc], fun _ _ => rfl, fun _ => rfl⟩

theorem alert_step_fixed_ok (st : Results) (a : RawAlert)
    (hty : a.policyType ∈ type_names) (hstat : a.status ∈ status_names)
    (hrem : a.policyRemediable = true → a.status = "open" ∨ a.status = "resolved")
    (hpol : match Dict.lookup st.policies a.policyId with
            | some pol => pol.policyEnabled = true ∧ pol.policySeverity ∈ severity_names ∧
                pol.policyType ∈ type_names
            | none => a.reason.isSome = true)
    (hat : at_keys_ok st.alert_totals_by_alert)
    (hpt : pt_keys_ok st.policy_totals_by_alert)
    (hrows : rows3_ok st.compliance_standards_counts_from_alerts) :
    ∃ st', alert_step (some st.policies) st a = .ok st' ∧
      at_keys_ok st'.alert_totals_by_alert ∧
      pt_keys_ok st'.policy_totals_by_alert ∧
      rows3_ok st'.compliance_standards_counts_from_alerts ∧
      st'.policies = st.policies ∧
      st'.alert_counts_from_policies = st.alert_counts_from_policies ∧
      st'.compliance_standards_counts_from_policies
        = st.compliance_standards_counts_from_policies ∧
      (∀ s, (Dict.lookup st'.compliance_standards_counts_from_alerts s).isSome = true
        ↔ ((Dict.lookup st.compliance_standards_counts_from_alerts s).isSome = true
            ∨ ∃ pol, Dict.lookup st.policies a.policyId = some pol ∧
                s ∈ pol.complianceStandards)) ∧
      (∀ s, sum3_of st'.compliance_standards_counts_from_alerts s
        = sum3_of st.compliance_standards_counts_from_alerts s
          + (match Dict.lookup st.policies a.policyId with
             | some pol => ((pol.complianceStandards.count s : Int))
             | none => 0)) := by
  have hstatcase : a.status = "open" ∨ a.status = "resolved" ∨ a.status = "dismissed" ∨
      a.status = "snoozed" := by simpa [status_names] using hstat
  have htycase : a.policyType = "anomaly" ∨ a.policyType = "audit_event" ∨
      a.policyType = "config" ∨ a.policyType = "data" ∨ a.policyType = "iam" ∨
      a.policyType = "network" := by simpa [type_names] using hty
  obtain ⟨at1, hat1eq, _, hat1some⟩ :=
    kv_branch_incr_ok a.policySystemDefault st.alert_totals_by_alert "default" "custom" 1
      (hat _ (by decide)) (hat _ (by decide))
  have transA1 : ∀ k, (Dict.lookup init_alert_totals_by_alert k).isSome = true →
      (Dict.lookup at1 k).isSome = true := fun k hk => by rw [hat1some]; exact hat k hk
  have hk2 : (Dict.lookup init_alert_totals_by_alert a.policyType).isSome = true := by
    rcases htycase with h | h | h | h | h | h <;> rw [h] <;> decide
  obtain ⟨at2, hat2⟩ := Kv.incr_exists_ok (transA1 _ hk2) 1
  have transA2 : ∀ k, (Dict.lookup init_alert_totals_by_alert k).isSome = true →
      (Dict.lookup at2 k).isSome = true := fun k hk => by
    rw [Kv.isSome_of_incr_ok hat2]; exact transA1 k hk
  have h3 : ∃ at3, (if a.policyRemediable = true then
        ebind (Kv.incr at2 "remediable" 1) fun x =>
          Kv.incr x ("remediable_" ++ a.status) 1
      else Except.ok at2) = .ok at3 ∧
      ∀ k, (Dict.lookup at3 k).isSome = (Dict.lookup at2 k).isSome := by
    cases hb : a.policyRemediable with
    | false => exact ⟨at2, by simp [hb], fun k => rfl⟩
    | true =>
        have hst2 : a.status = "open" ∨ a.status = "resolved" := hrem hb
        have hkey : (Dict.lookup init_alert_totals_by_alert
            ("remediable_" ++ a.status)).isSome = true := by
          rcases hst2 with h | h <;> rw [h] <;> decide
        obtain ⟨x1, hx1⟩ := Kv.incr_exists_ok (transA2 "remediable" (by decide)) 1
        obtain ⟨x2, hx2⟩ := Kv.incr_exists_ok
          (by rw [Kv.isSome_of_incr_ok hx1]; exact transA2 _ hkey) 1
        refine ⟨x2, ?_, fun k => by
          rw [Kv.isSome_of_incr_ok hx2, Kv.isSome_of_incr_ok hx1]⟩
        rw [if_pos rfl, hx1]
        simp only [ebind_ok]
        exact hx2
  obtain ⟨at3, hat3eq, hat3some⟩ := h3
  have transA3 : ∀ k, (Dict.lookup init_alert_totals_by_alert k).isSome = true →
      (Dict.lookup at3 k).isSome = true := fun k hk => by rw [hat3some]; exact transA2 k hk
  have hk4 : (Dict.lookup init_alert_totals_by_alert a.status).isSome = true := by
    rcases hstatcase with h | h | h | h <;> rw [h] <;> decide
  obtain ⟨at4, hat4⟩ := Kv.incr_exists_ok (transA3 _ hk4) 1
  have transA4 : ∀ k, (Dict.lookup init_alert_totals_by_alert k).isSome = true →
      (Dict.lookup at4 k).isSome = true := fun k hk => by
    rw [Kv.isSome_of_incr_ok hat4]; exact transA3 k hk
  have h5 : ∃ at5, (match a.reason with
      | none => Except.ok at4
      | some r =>
          ebind (if r = "RESOURCE_DELETED" then Kv.incr at4 "resolved_deleted" 1
                 else Except.ok at4) fun y =>
            if r = "RESOURCE_UPDATED" then Kv.incr y "resolved_updated" 1
            else Except.ok y) = .ok at5 ∧
      ∀ k, (Dict.lookup at5 k).isSome = (Dict.lookup at4 k).isSome := by
    cases a.reason with
    | none => exact ⟨at4, rfl, fun k => rfl⟩
    | some r =>
        obtain ⟨y, hy, _, hysome⟩ := kv_opt_incr_prop_ok (r = "RESOURCE_DELETED") at4
          "resolved_deleted" 1 (transA4 _ (by decide))
        obtain ⟨z, hz, _, hzsome⟩ := kv_opt_incr_prop_ok (r = "RESOURCE_UPDATED") y
          "resolved_updated" 1 (by rw [hysome]; exact transA4 _ (by decide))
        exact ⟨z, by simp only [hy, ebind_ok]; exact hz,
          fun k => by rw [hzsome, hysome]⟩
  obtain ⟨at5, hat5eq, hat5some⟩ := h5
  have transA5 : ∀ k, (Dict.lookup init_alert_totals_by_alert k).isSome = true →
      (Dict.lookup at5 k).isSome = true := fun k hk => by rw [hat5some]; exact transA4 k hk
  cases hlook : Dict.lookup st.policies a.policyId with
  | none =>
      rw [hlook] at hpol
      obtain ⟨r, hr⟩ := Option.isSome_iff_exists.mp hpol
      by_cases hrdel : r = "POLICY_DELETED"
      · have hpdlook : (Dict.lookup (Dict.setdefault st.policies_deleted a.policyId 0)
            a.policyId).isSome = true := by
          rw [Dict.lookup_setdefault, if_pos rfl]
          cases Dict.lookup st.policies_deleted a.policyId <;> simp
        obtain ⟨pd2, hpd2⟩ := Kv.incr_exists_ok hpdlook 1
        obtain ⟨at6, hat6⟩ := Kv.incr_exists_ok (transA5 "policy_deleted" (by decide)) 1
        refine ⟨{ st with alert_totals_by_alert := at6, policies_deleted := pd2 },
          ?_, ?_, hpt, hrows, rfl, rfl, rfl, ?_, ?_⟩
        · show ebind _ _ = _
          simp only [hat1eq, ebind_ok, hat2, hat3eq, hat4, hat5eq]
          simp only [hlook, hr]
          rw [if_pos hrdel]
          simp only [hpd2, ebind_ok, hat6]
        · intro k hk
          rw [Kv.isSome_of_incr_ok hat6]
          exact transA5 k hk
        · intro s
          simp [hlook]
        · intro s
          simp [hlook]
      · refine ⟨{ st with alert_totals_by_alert := at5 }, ?_, transA5, hpt, hrows,
          rfl, rfl, rfl, ?_, ?_⟩
        · show ebind _ _ = _
          simp only [hat1eq, ebind_ok, hat2, hat3eq, hat4, hat5eq]
          simp only [hlook, hr]
          rw [if_neg hrdel]
        · intro s
          simp [hlook]
        · intro s
          simp [hlook]
  | some pol =>
      rw [hlook] at hpol
      obtain ⟨hen, hsev3, htyp3⟩ := hpol
      have hsevcase : pol.policySeverity = "high" ∨ pol.policySeverity = "medium" ∨
          pol.policySeverity = "low" := by simpa [severity_names] using hsev3
      have htypcase : pol.policyType = "anomaly" ∨ pol.policyType = "audit_event" ∨
          pol.policyType = "config" ∨ pol.policyType = "data" ∨ pol.policyType = "iam" ∨
          pol.policyType = "network" := by simpa [type_names] using htyp3
      obtain ⟨rr, hrr⟩ : ∃ rr, Dict.lookup (Dict.setdefault st.policy_counts_from_alerts
          pol.policyName { policyId := a.policyId, alertCount := 0 })
          pol.policyName = some rr := by
        rw [Dict.lookup_setdefault, if_pos rfl]
        cases Dict.lookup st.policy_counts_from_alerts pol.policyName <;> simp
      have hksev : (Dict.lookup init_policy_counts_seed pol.policySeverity).isSome = true := by
        rcases hsevcase with h | h | h <;> rw [h] <;> decide
      have hktyp : (Dict.lookup init_policy_counts_seed pol.policyType).isSome = true := by
        rcases htypcase with h | h | h | h | h | h <;> rw [h] <;> decide
      obtain ⟨pt1, hpt1⟩ := Kv.incr_exists_ok (hpt _ hksev) 1
      obtain ⟨pt2, hpt2⟩ := Kv.incr_exists_ok
        (show (Dict.lookup pt1 pol.policyType).isSome = true from by
          rw [Kv.isSome_of_incr_ok hpt1]; exact hpt _ hktyp) 1
      have hnotdis : ¬ (pol.policyEnabled = false) := by simp [hen]
      obtain ⟨csfa2, hcsfarun, hcsfarows, hcsfamem, hcsfasum⟩ :=
        add_to_standards_ok pol.policySeverity 1 hsev3 pol.complianceStandards
          st.compliance_standards_counts_from_alerts hrows
      obtain ⟨at7, hat7eq, _, hat7some⟩ :=
        kv_opt_incr_ok pol.policyShiftable at5 "shiftable" 1 (transA5 _ (by decide))
      have hk8 : (Dict.lookup init_alert_totals_by_alert
          (a.status ++ "_" ++ pol.policySeverity)).isSome = true := by
        rcases hstatcase with h | h | h | h <;> rcases hsevcase with h2 | h2 | h2 <;>
          rw [h, h2] <;> decide
      obtain ⟨at8, hat8⟩ := Kv.incr_exists_ok
        (show (Dict.lookup at7 (a.status ++ "_" ++ pol.policySeverity)).isSome = true from by
          rw [hat7some]; exact transA5 _ hk8) 1
      refine ⟨{ st with
                policy_counts_from_alerts := Dict.set (Dict.setdefault
                  st.policy_counts_from_alerts pol.policyName
                  { policyId := a.policyId, alertCount := 0 }) pol.policyName
                  { rr with alertCount := rr.alertCount + 1 }
                policy_totals_by_alert := pt2
                alert_totals_by_alert := at8
                compliance_standards_counts_from_alerts := csfa2 },
        ?_, ?_, ?_, hcsfarows, rfl, rfl, rfl, ?_, ?_⟩
      · show ebind _ _ = _
        simp only [hat1eq, ebind_ok, hat2, hat3eq, hat4, hat5eq]
        simp only [hlook, hrr, ebind_ok, hpt1, hpt2]
        rw [if_neg hnotdis]
        simp only [ebind_ok, hcsfarun, hat7eq, hat8]
      · intro k hk
        rw [Kv.isSome_of_incr_ok hat8, hat7some]
        exact transA5 k hk
      · intro k hk
        rw [Kv.isSome_of_incr_ok hpt2, Kv.isSome_of_incr_ok hpt1]
        exact hpt k hk
      · intro s
        rw [hcsfamem s]
        simp [hlook, mem_standards_of]
      · intro s
        rw [hcsfasum s]
        simp

theorem foldl_set_policies_lookup (sm : Bool) (agg : Kv) :
    ∀ (ps : List RawPolicy) (t : Dict PolicyRec) (pid : String),
    (ps.map RawPolicy.policyId).Nodup →
    Dict.lookup (ps.foldl (fun t p => Dict.set t p.policyId (mk_policy_record sm agg p)) t)
        pid
      = (match ps.find? (fun p => p.policyId = pid) with
         | some p => some (mk_policy_record sm agg p)
         | none => Dict.lookup t pid) := by
  intro ps
  induction ps with
  | nil => intro t pid _; rfl
  | cons p rest ih =>
      intro t pid hnd
      rw [List.map_cons, List.nodup_cons] at hnd
      obtain ⟨hnotin, hndrest⟩ := hnd
      rw [List.foldl_cons, ih _ pid hndrest, List.find?_cons]
      by_cases hpid : p.policyId = pid
      · have hd : (decide (p.policyId = pid)) = true := decide_eq_true hpid
        have hrest_none : rest.find? (fun q => decide (q.policyId = pid)) = none := by
          rw [List.find?_eq_none]
          intro q hq hdec
          exact hnotin (hpid ▸ (of_decide_eq_true hdec) ▸ List.mem_map_of_mem _ hq)
        simp only [hd, hrest_none, Dict.lookup_set, if_pos hpid]
      · have hd : (decide (p.policyId = pid)) = false := decide_eq_false hpid
        simp only [hd]
        cases hres : rest.find? (fun q => decide (q.policyId = pid)) with
        | some q => simp only [hres]
        | none => simp only [hres, Dict.lookup_set, if_neg hpid]

theorem process_alerts_full_fixed_ok :
    ∀ (alerts : List RawAlert) (st : Results),
    (∀ a ∈ alerts, a.policyType ∈ type_names ∧ a.status ∈ status_names ∧
      (a.policyRemediable = true → a.status = "open" ∨ a.status = "resolved") ∧
      (match Dict.lookup st.policies a.policyId with
       | some pol => pol.policyEnabled = true ∧ pol.policySeverity ∈ severity_names ∧
           pol.policyType ∈ type_names
       | none => a.reason.isSome = true)) →
    at_keys_ok st.alert_totals_by_alert →
    pt_keys_ok st.policy_totals_by_alert →
    rows3_ok st.compliance_standards_counts_from_alerts →
    ∃ st', process_alerts_full (some st.policies) st alerts = .ok st' ∧
      st'.policies = st.policies ∧
      st'.compliance_standards_counts_from_policies
        = st.compliance_standards_counts_from_policies ∧
      st'.alert_counts_from_policies = st.alert_counts_from_policies ∧
      (∀ s, (Dict.lookup st'.compliance_standards_counts_from_alerts s).isSome = true
        ↔ ((Dict.lookup st.compliance_standards_counts_from_alerts s).isSome = true
            ∨ ∃ a ∈ alerts, ∃ pol, Dict.lookup st.policies a.policyId = some pol ∧
                s ∈ pol.complianceStandards)) ∧
      (∀ s, sum3_of st'.compliance_standards_counts_from_alerts s
        = sum3_of st.compliance_standards_counts_from_alerts s
          + alert_attrib_tbl st.policies alerts s) := by
  intro alerts
  induction alerts with
  | nil =>
      intro st _ _ _ _
      refine ⟨st, rfl, rfl, rfl, rfl, fun s => by simp, fun s => by
        simp [alert_attrib_tbl]⟩
  | cons a rest ih =>
      intro st hvalid hat hpt hrows
      obtain ⟨hty, hstat, hrem, hpol⟩ := hvalid a (List.mem_cons_self a rest)
      obtain ⟨st1, hstep, hat1, hpt1, hrows1, hpol1, hacfp1, hcsfp1, hmem1, hsum1⟩ :=
        alert_step_fixed_ok st a hty hstat hrem hpol hat hpt hrows
      have hvrest : ∀ b ∈ rest, b.policyType ∈ type_names ∧ b.status ∈ status_names ∧
          (b.policyRemediable = true → b.status = "open" ∨ b.status = "resolved") ∧
          (match Dict.lookup st1.policies b.policyId with
           | some pol => pol.policyEnabled = true ∧ pol.policySeverity ∈ severity_names ∧
               pol.policyType ∈ type_names
           | none => b.reason.isSome = true) := by
        intro b hb
        rw [hpol1]
        exact hvalid b (List.mem_cons_of_mem a hb)
      obtain ⟨st', hrun', hpol', hcsfp', hacfp', hmem', hsum'⟩ := ih st1 hvrest hat1 hpt1 hrows1
      refine ⟨st', ?_, ?_, ?_, ?_, ?_, ?_⟩
      · show ebind (alert_step (some st.policies) st a) _ = _
        rw [hstep]
        simp only [ebind_ok]
        rw [← hpol1]
        exact hrun'
      · rw [hpol', hpol1]
      · rw [hcsfp', hcsfp1]
      · rw [hacfp', hacfp1]
      · intro s
        rw [hmem' s, hmem1 s, hpol1]
        simp only [List.mem_cons]
        constructor
        · rintro ((hh | hh) | ⟨b, hb, hex⟩)
          · exact Or.inl hh
          · exact Or.inr ⟨a, Or.inl rfl, hh⟩
          · exact Or.inr ⟨b, Or.inr hb, hex⟩
        · rintro (hh | ⟨b, (rfl | hb), hex⟩)
          · exact Or.inl (Or.inl hh)
          · exact Or.inl (Or.inr hex)
          · exact Or.inr ⟨b, hb, hex⟩
      · intro s
        rw [hsum' s, hsum1 s, hpol1]
        simp only [alert_attrib_tbl, List.map_cons, List.sum_cons]
        ring

theorem std_total_eq_policy_attribution (ps : List RawPolicy) (s : String) :
    std_total false [] ps s = policy_attribution ps s := by
  induction ps with
  | nil => rfl
  | cons p rest ih =>
      simp only [std_total, policy_attribution, List.map_cons, List.sum_cons] at ih ⊢
      rw [ih, count_standards_of]
      have hc : policy_count false [] p = p.openAlertsCount := rfl
      rw [hc]
      by_cases hmem : s ∈ declared_standards p
      · rw [if_pos hmem, if_pos hmem]
        push_cast
        ring
      · rw [if_neg hmem, if_neg hmem]
        push_cast
        ring

theorem alert_attrib_tbl_eq (ps : List RawPolicy) (tbl : Dict PolicyRec)
    (htbl : ∀ pid, Dict.lookup tbl pid
      = (match ps.find? (fun p => p.policyId = pid) with
         | some p => some (mk_policy_record false [] p)
         | none => none)) :
    ∀ (alerts : List RawAlert) (s : String),
      alert_attrib_tbl tbl alerts s = alert_attribution ps alerts s := by
  intro alerts s
  induction alerts with
  | nil => rfl
  | cons a rest ih =>
      simp only [alert_attrib_tbl, alert_attribution, List.map_cons, List.sum_cons] at ih ⊢
      rw [ih]
      congr 1
      rw [htbl a.policyId]
      cases hf : ps.find? (fun p => p.policyId = a.policyId) with
      | none => simp only [hf]
      | some p =>
          simp only [hf]
          have hstd : (mk_policy_record false [] p).complianceStandards = standards_of p := rfl
          rw [hstd, count_standards_of]
          by_cases hmem : s ∈ declared_standards p <;> simp [hmem]

theorem table_standard_mem_iff (ps : List RawPolicy)
    (hnd : (ps.map RawPolicy.policyId).Nodup) (tbl : Dict PolicyRec)
    (htbl : ∀ pid, Dict.lookup tbl pid
      = (match ps.find? (fun p => p.policyId = pid) with
         | some p => some (mk_policy_record false [] p)
         | none => none)) (pid : String) (s : String) :
    (∃ pol, Dict.lookup tbl pid = some pol ∧ s ∈ pol.complianceStandards)
      ↔ ∃ p ∈ ps, p.policyId = pid ∧ s ∈ declared_standards p := by
  constructor
  · rintro ⟨pol, hpol, hs⟩
    rw [htbl] at hpol
    cases hf : ps.find? (fun p => p.policyId = pid) with
    | none =>
        rw [hf] at hpol
        cases hpol
    | some p =>
        rw [hf] at hpol
        have hpol' : some (mk_policy_record false [] p) = some pol := hpol
        have hpe : mk_policy_record false [] p = pol := by injection hpol'
        have hpidb := List.find?_some hf
        have hpid : p.policyId = pid := by simpa using hpidb
        refine ⟨p, List.mem_of_find?_eq_some hf, hpid, ?_⟩
        apply (mem_standards_of p s).mp
        have hstd : standards_of p = pol.complianceStandards := by
          rw [← hpe]
          rfl
        rw [hstd]
        exact hs
  · rintro ⟨p, hp, hpid, hs⟩
    have hfind : ∃ q, ps.find? (fun r => r.policyId = pid) = some q :=
      Option.isSome_iff_exists.mp (List.find?_isSome.mpr ⟨p, hp, by simp [hpid]⟩)
    obtain ⟨q, hq⟩ := hfind
    have hq_mem := List.mem_of_find?_eq_some hq
    have hq_pidb := List.find?_some hq
    have hq_pid : q.policyId = pid := by simpa using hq_pidb
    have hqp : q = p := List.inj_on_of_nodup_map hnd hq_mem hp (by rw [hq_pid, hpid])
    subst hqp
    refine ⟨mk_policy_record false [] q, ?_, ?_⟩
    · rw [htbl, hq]
    · exact (mem_standards_of q s).mpr hs

/-- C4: as stated the claim fails on the code: for a policy and one alert
resolving to it, the full-API pipeline raises `NameError` at the line-658
membership test before any alerts-side rollup is built, so no run produces a
rollup containing the declared standard. -/
theorem c4_counterexample :
    run_process [example_policy_high] [example_alert_resolvable]
      = .error "NameError: name policies is not defined" ∧
    ¬ ∃ st, run_process [example_policy_high] [example_alert_resolvable] = .ok st ∧
        (Dict.lookup st.compliance_standards_counts_from_alerts "CIS").isSome = true := by
  have h : run_process [example_policy_high] [example_alert_resolvable]
      = .error "NameError: name policies is not defined" := by decide
  refine ⟨h, ?_⟩
  rintro ⟨st, hst, _⟩
  rw [h] at hst
  cases hst

/-- C4 (amended): with the line-658 membership test read as membership in
the policies table (in the literal script it names an undefined global), for
policies with documented severity/type values and distinct identifiers, and
alerts with documented fields avoiding the missing-key defects (resolvable
policies enabled, remediable alerts open or resolved, dangling alerts
carrying a reason), each compliance rollup contains exactly the standards
declared by at least one processed policy (respectively by the policy of at
least one alert with a resolvable policy), and each row's severity buckets
sum to the total attribution (policy open-alert counts, respectively one per
attributed alert). -/
theorem c4_compliance_rollups :
    ∀ (ps : List RawPolicy) (alerts : List RawAlert),
      ps.all valid_policy = true →
      (ps.map RawPolicy.policyId).Nodup →
      alerts.all (valid_alert_for ps) = true →
      ∃ st, run_process_fixed ps alerts = .ok st ∧
        (∀ s, (Dict.lookup st.compliance_standards_counts_from_policies s).isSome = true
          ↔ ∃ p ∈ ps, s ∈ declared_standards p) ∧
        (∀ s row, Dict.lookup st.compliance_standards_counts_from_policies s = some row →
          kv_sum3 row = policy_attribution ps s) ∧
        (∀ s, (Dict.lookup st.compliance_standards_counts_from_alerts s).isSome = true
          ↔ ∃ a ∈ alerts, ∃ p ∈ ps, p.policyId = a.policyId ∧ s ∈ declared_standards p) ∧
        (∀ s row, Dict.lookup st.compliance_standards_counts_from_alerts s = some row →
          kv_sum3 row = alert_attribution ps alerts s) := by
  intro ps alerts hallp hnd halla
  obtain ⟨st1, hrun1, hac1, hrows1, hpols1, hcsfa1, hpca1, hpt1, hat1, hpd1, hpdis1, _, _,
    hmemP, hsumP⟩ :=
    process_policies_ok false [] ps initial_results hallp (fun _ hk => hk)
      (fun s row h => by simp [initial_results, Dict.lookup] at h)
  have htbl : ∀ pid, Dict.lookup st1.policies pid
      = (match ps.find? (fun p => p.policyId = pid) with
         | some p => some (mk_policy_record false [] p)
         | none => none) := by
    intro pid
    rw [hpols1, foldl_set_policies_lookup false [] ps initial_results.policies pid hnd]
    cases ps.find? (fun p => p.policyId = pid) with
    | some p => rfl
    | none => rfl
  have halla' : ∀ a ∈ alerts, a.policyType ∈ type_names ∧ a.status ∈ status_names ∧
      (a.policyRemediable = true → a.status = "open" ∨ a.status = "resolved") ∧
      (match Dict.lookup st1.policies a.policyId with
       | some pol => pol.policyEnabled = true ∧ pol.policySeverity ∈ severity_names ∧
           pol.policyType ∈ type_names
       | none => a.reason.isSome = true) := by
    intro a ha
    have hva := (List.all_eq_true.mp halla) a ha
    simp only [valid_alert_for, Bool.and_eq_true, decide_eq_true_eq] at hva
    obtain ⟨⟨⟨h1, h2⟩, h3⟩, h4⟩ := hva
    refine ⟨h1, h2, ?_, ?_⟩
    · intro hr
      rw [hr] at h3
      simpa using h3
    · rw [htbl a.policyId]
      cases hf : ps.find? (fun p => p.policyId = a.policyId) with
      | none =>
          rw [hf] at h4
          simpa using h4
      | some p =>
          rw [hf] at h4
          have hp_mem : p ∈ ps := List.mem_of_find?_eq_some hf
          have hvp := (List.all_eq_true.mp hallp) p hp_mem
          simp only [valid_policy, Bool.and_eq_true, decide_eq_true_eq] at hvp
          exact ⟨h4, hvp.1, hvp.2⟩
  have hat_ok : at_keys_ok st1.alert_totals_by_alert := by
    rw [hat1]
    exact fun _ hk => hk
  have hpt_ok : pt_keys_ok st1.policy_totals_by_alert := by
    rw [hpt1]
    exact fun _ hk => hk
  have hrows_a : rows3_ok st1.compliance_standards_counts_from_alerts := by
    rw [hcsfa1]
    exact fun s row h => by simp [initial_results, Dict.lookup] at h
  obtain ⟨st', hrun', hpol', hcsfp', hacfp', hmemA, hsumA⟩ :=
    process_alerts_full_fixed_ok alerts st1 halla' hat_ok hpt_ok hrows_a
  refine ⟨st', ?_, ?_, ?_, ?_, ?_⟩
  · show ebind (process_policies false [] initial_results ps) _ = _
    rw [hrun1]
    simp only [ebind_ok]
    exact hrun'
  · intro s
    rw [hcsfp', hmemP s]
    simp only [show Dict.lookup initial_results.compliance_standards_counts_from_policies s
        = none from rfl, Option.isSome_none, Bool.false_eq_true, false_or]
    constructor
    · rintro ⟨p, hp, hs⟩
      exact ⟨p, hp, (mem_standards_of p s).mp hs⟩
    · rintro ⟨p, hp, hs⟩
      exact ⟨p, hp, (mem_standards_of p s).mpr hs⟩
  · intro s row hrow
    rw [hcsfp'] at hrow
    have hh := hsumP s
    rw [sum3_of_some hrow] at hh
    rw [hh, sum3_of_none (show Dict.lookup
      initial_results.compliance_standards_counts_from_policies s = none from rfl),
      std_total_eq_policy_attribution]
    ring
  · intro s
    rw [hmemA s]
    rw [show Dict.lookup st1.compliance_standards_counts_from_alerts s = none from by
      rw [hcsfa1]; rfl]
    simp only [Option.isSome_none, Bool.false_eq_true, false_or]
    constructor
    · rintro ⟨a, ha, hex⟩
      exact ⟨a, ha, (table_standard_mem_iff ps hnd st1.policies htbl a.policyId s).mp hex⟩
    · rintro ⟨a, ha, hex⟩
      exact ⟨a, ha, (table_standard_mem_iff ps hnd st1.policies htbl a.policyId s).mpr hex⟩
  · intro s row hrow
    have hh := hsumA s
    rw [sum3_of_some hrow] at hh
    rw [hh, sum3_of_none (show Dict.lookup st1.compliance_standards_counts_from_alerts s
        = none from by rw [hcsfa1]; rfl),
      alert_attrib_tbl_eq ps st1.policies htbl alerts s]
    ring

theorem c4_compliance_rollups_witness :
    ([example_policy_high, example_policy_medium].all valid_policy = true) ∧
    (([example_policy_high, example_policy_medium].map RawPolicy.policyId).Nodup) ∧
    ([example_alert_resolvable].all
      (valid_alert_for [example_policy_high, example_policy_medium]) = true) ∧
    ∃ st, run_process_fixed [example_policy_high, example_policy_medium]
        [example_alert_resolvable] = .ok st ∧
      (∀ s, (Dict.lookup st.compliance_standards_counts_from_policies s).isSome = true
        ↔ ∃ p ∈ [example_policy_high, example_policy_medium], s ∈ declared_standards p) ∧
      (∀ s row, Dict.lookup st.compliance_standards_counts_from_policies s = some row →
        kv_sum3 row = policy_attribution [example_policy_high, example_policy_medium] s) ∧
      (∀ s, (Dict.lookup st.compliance_standards_counts_from_alerts s).isSome = true
        ↔ ∃ a ∈ [example_alert_resolvable],
            ∃ p ∈ [example_policy_high, example_policy_medium],
              p.policyId = a.policyId ∧ s ∈ declared_standards p) ∧
      (∀ s row, Dict.lookup st.compliance_standards_counts_from_alerts s = some row →
        kv_sum3 row = alert_attribution [example_policy_high, example_policy_medium]
          [example_alert_resolvable] s) :=
  ⟨by decide, by decide, by decide,
    c4_compliance_rollups [example_policy_high, example_policy_medium]
      [example_alert_resolvable] (by decide) (by decide) (by decide)⟩
